import Mathlib

/-!
# MarketAI: prompt builder and relay service

A shallow embedding of `script.js` (the prompt builder `MarketAI.buildPrompt`
and the error branch of `MarketAI.callOpenAI`) and of `api.js` (the relay's
request handler), with the properties of their contract.

Conventions of the embedding.

* A JavaScript string is a Lean `String` (a sequence of Unicode scalar values);
  strings that come out of `JSON.parse` are kept as UTF-16 code units, since an
  escape such as `\ud800` makes a string no sequence of scalar values can hold.
* A `Buffer` is a list of bytes, each a natural number below 256.
* A JavaScript number read by `JSON.parse` is kept as the numeral that denotes it;
  the double it stands for is computed, on natural numbers and integers, where
  `JSON.stringify` writes it.
* The handler is run on the requests that the server hands to it; the server never
  hands over a request with method CONNECT.
-/

namespace MarketAI

/-! ## Prompt builder (`script.js`, `buildPrompt`) -/

/-- One value of the table `prompts`: an instruction text and a format text. -/
structure PromptData where
  instruction : String
  format : String
deriving DecidableEq, Repr

/-- The own properties of the object literal `prompts`, in source order. -/
def prompts : List (String × PromptData) :=
  [ ("slogan",
      { instruction := "Create 3-5 catchy, memorable slogans that capture the essence of this product/service. Make them short, impactful, and brand-worthy."
        format := "List each slogan on a new line with a bullet point." }),
    ("ad-copy",
      { instruction := "Write compelling advertisement copy that highlights key benefits, creates urgency, and drives action. Include a strong call-to-action."
        format := "Provide a headline, main copy (2-3 paragraphs), and a clear call-to-action." }),
    ("product-description",
      { instruction := "Create a detailed, engaging product description that highlights features, benefits, and value proposition. Make it SEO-friendly and conversion-focused."
        format := "Provide a structured description with key features, benefits, and specifications if applicable." }),
    ("hashtags",
      { instruction := "Generate 15-20 relevant hashtags for social media marketing. Mix popular, niche, and branded hashtags for maximum reach."
        format := "List hashtags separated by spaces, starting with most popular/relevant ones." }),
    ("email",
      { instruction := "Write a complete marketing email including subject line, body copy, and call-to-action. Make it engaging and conversion-focused."
        format := "Provide: Subject Line, Email Body (with greeting, main content, and closing), and Call-to-Action." }) ]

/-- The property names an object literal inherits from `Object.prototype`. Each of
them reads as a function (or, for `__proto__`, as `Object.prototype` itself): a
truthy value that has neither an `instruction` nor a `format` property. -/
def objectPrototypeKeys : List String :=
  [ "constructor", "__defineGetter__", "__defineSetter__", "hasOwnProperty",
    "__lookupGetter__", "__lookupSetter__", "isPrototypeOf", "propertyIsEnumerable",
    "toString", "valueOf", "__proto__", "toLocaleString" ]

/-- What a property read on `prompts` yields when it is not `undefined`. -/
inductive PromptValue where
  /-- An own entry of the table. -/
  | entry (p : PromptData)
  /-- A member inherited from `Object.prototype`. -/
  | inherited (name : String)
deriving DecidableEq, Repr

/-- The property read `prompts[key]`; `none` is `undefined`. Own properties are
found first, then the prototype chain. -/
def promptsGet (key : String) : Option PromptValue :=
  match prompts.lookup key with
  | some p => some (PromptValue.entry p)
  | none => if key ∈ objectPrototypeKeys then some (PromptValue.inherited key) else none

/-- The operator `a || b` on values that are objects or `undefined`: every object
is truthy, `undefined` is falsy. -/
def orElseJs (a b : Option PromptValue) : Option PromptValue :=
  match a with
  | some v => some v
  | none => b

/-- The text a template literal interpolates for `promptData.instruction`: the
string itself for a table entry, and `undefined` for a value of the prototype. -/
def instructionText : PromptValue → String
  | PromptValue.entry p => p.instruction
  | PromptValue.inherited _ => "undefined"

/-- The text a template literal interpolates for `promptData.format`. -/
def formatText : PromptValue → String
  | PromptValue.entry p => p.format
  | PromptValue.inherited _ => "undefined"

/-- The call `s.replace(p, r)` with a one-character string pattern: only the first
occurrence is replaced. -/
def replaceFirst (p r : Char) : List Char → List Char
  | [] => []
  | c :: cs => if c = p then r :: cs else c :: replaceFirst p r cs

/-- The method `toUpperCase`: every character is replaced by its full uppercase
mapping. The mapping of the ASCII range is fixed here; the Unicode table of the
other characters is the parameter `upperTable`. -/
def toUpperCase (upperTable : Char → List Char) (s : List Char) : List Char :=
  s.flatMap fun c => if c.toNat < 128 then [c.toUpper] else upperTable c

/-- The expression `contentType.replace('-', ' ').toUpperCase()`. -/
def contentTypeLabel (upperTable : Char → List Char) (contentType : String) : String :=
  String.mk (toUpperCase upperTable (replaceFirst '-' ' ' contentType.data))

/-- The template literal returned by `buildPrompt`, with its four holes. -/
def promptTemplate (label description instruction format : String) : String :=
  "You are a professional marketing copywriter with expertise in creating high-converting content. \n\nCONTENT TYPE: "
    ++ label
    ++ "\n\nPRODUCT/SERVICE DESCRIPTION:\n"
    ++ description
    ++ "\n\nTASK: "
    ++ instruction
    ++ "\n\nFORMAT: "
    ++ format
    ++ "\n\nREQUIREMENTS:\n- Make it professional and engaging\n- Ensure it\x27s suitable for the target audience\n- Focus on benefits and value proposition\n- Use persuasive language that drives action\n- Keep the tone appropriate for marketing materials\n\nPlease provide only the requested content without any additional explanations or meta-commentary."

/-- The method `buildPrompt(contentType, productDescription)` on string arguments.
`none` stands for a `TypeError` (reading a property of `undefined`). -/
def buildPrompt (upperTable : Char → List Char) (contentType productDescription : String) :
    Option String :=
  match orElseJs (promptsGet contentType) (promptsGet "slogan") with
  | none => none
  | some promptData =>
    some (promptTemplate (contentTypeLabel upperTable contentType) productDescription
      (instructionText promptData) (formatText promptData))

/-! ## Text encodings used by the relay (`Buffer.toString`, `res.end`) -/

/-- State of the UTF-8 decoder between two bytes: the number of continuation bytes
still expected, the bits collected so far and the bounds of the next byte. -/
structure Utf8State where
  needed : Nat
  codePoint : Nat
  lower : Nat
  upper : Nat
deriving DecidableEq, Repr

/-- The decoder state outside any multi-byte sequence. -/
def Utf8State.idle : Utf8State := { needed := 0, codePoint := 0, lower := 0x80, upper := 0xBF }

/-- One byte read while no sequence is pending: an ASCII byte is a character, a
lead byte opens a sequence, any other byte decodes to U+FFFD. -/
def utf8Lead (b : Nat) : List Char × Utf8State :=
  if b < 0x80 then ([Char.ofNat b], Utf8State.idle)
  else if 0xC2 ≤ b ∧ b ≤ 0xDF then
    ([], { needed := 1, codePoint := b - 0xC0, lower := 0x80, upper := 0xBF })
  else if 0xE0 ≤ b ∧ b ≤ 0xEF then
    ([], { needed := 2, codePoint := b - 0xE0,
           lower := if b = 0xE0 then 0xA0 else 0x80,
           upper := if b = 0xED then 0x9F else 0xBF })
  else if 0xF0 ≤ b ∧ b ≤ 0xF4 then
    ([], { needed := 3, codePoint := b - 0xF0,
           lower := if b = 0xF0 then 0x90 else 0x80,
           upper := if b = 0xF4 then 0x8F else 0xBF })
  else ([Char.ofNat 0xFFFD], Utf8State.idle)

/-- One byte read by the decoder. A byte that cannot continue the pending sequence
ends it with U+FFFD and is then read again as a first byte. -/
def utf8Step (st : Utf8State) (b : Nat) : List Char × Utf8State :=
  if st.needed = 0 then utf8Lead b
  else if st.lower ≤ b ∧ b ≤ st.upper then
    if st.needed = 1 then ([Char.ofNat (st.codePoint * 64 + (b - 0x80))], Utf8State.idle)
    else ([], { needed := st.needed - 1, codePoint := st.codePoint * 64 + (b - 0x80),
                lower := 0x80, upper := 0xBF })
  else ((Char.ofNat 0xFFFD) :: (utf8Lead b).1, (utf8Lead b).2)

/-- The decoder run over a byte list; a sequence cut short by the end of the
input decodes to U+FFFD. -/
def utf8DecodeFrom : Utf8State → List Nat → List Char
  | st, [] => if st.needed = 0 then [] else [Char.ofNat 0xFFFD]
  | st, b :: bs => (utf8Step st b).1 ++ utf8DecodeFrom (utf8Step st b).2 bs

/-- The method `Buffer.prototype.toString()` (UTF-8, the default encoding): each
buffer is decoded on its own, starting outside any sequence. -/
def bufferToString (chunk : List Nat) : String :=
  String.mk (utf8DecodeFrom Utf8State.idle chunk)

/-- The UTF-8 bytes of one character. -/
def utf8EncodeChar (c : Char) : List Nat :=
  if c.toNat < 0x80 then [c.toNat]
  else if c.toNat < 0x800 then [0xC0 + c.toNat / 64, 0x80 + c.toNat % 64]
  else if c.toNat < 0x10000 then
    [0xE0 + c.toNat / 4096, 0x80 + c.toNat / 64 % 64, 0x80 + c.toNat % 64]
  else
    [0xF0 + c.toNat / 262144, 0x80 + c.toNat / 4096 % 64, 0x80 + c.toNat / 64 % 64,
      0x80 + c.toNat % 64]

/-- The bytes that `res.end(text)` puts on the wire for a string (UTF-8). -/
def utf8Encode (text : String) : List Nat :=
  text.data.flatMap utf8EncodeChar

/-- The UTF-16 code units of one character, as a JavaScript string holds it. -/
def utf16Units (c : Char) : List Nat :=
  if c.toNat < 0x10000 then [c.toNat]
  else [0xD800 + (c.toNat - 0x10000) / 1024, 0xDC00 + (c.toNat - 0x10000) % 1024]

/-- The UTF-16 code units of a string. -/
def toJsString (s : String) : List Nat :=
  s.data.flatMap utf16Units

/-! ## `JSON.parse`

The grammar of JSON texts, read in two passes without backtracking: a scanner
that consumes one character at a time and a reader of the resulting tokens that
keeps the open arrays and objects on a stack. Both run over the input by
structural recursion, so `jsonParse` is total. -/

/-- A value produced by `JSON.parse`. A number keeps its numeral; a string is a
list of UTF-16 code units; an object keeps its members in source order,
duplicated names included. -/
inductive Json where
  | null
  | bool (b : Bool)
  | num (numeral : List Char)
  | str (units : List Nat)
  | arr (items : List Json)
  | obj (members : List (List Nat × Json))
deriving Repr

/-- A token of a JSON text. -/
inductive Token where
  | lbrace
  | rbrace
  | lbracket
  | rbracket
  | colon
  | comma
  | str (units : List Nat)
  | num (numeral : List Char)
  | litTrue
  | litFalse
  | litNull
deriving DecidableEq, Repr

/-- Where the scanner stands inside a number. -/
inductive NumState where
  /-- After the minus sign: a digit must follow. -/
  | minus
  /-- After the single integer digit 0. -/
  | zero
  /-- Inside an integer part that starts with 1 to 9. -/
  | int
  /-- After the decimal point: a digit must follow. -/
  | dot
  /-- Inside the fraction digits. -/
  | frac
  /-- After the exponent mark: a sign or a digit must follow. -/
  | exp
  /-- After the exponent sign: a digit must follow. -/
  | expSign
  /-- Inside the exponent digits. -/
  | expDigits
deriving DecidableEq, Repr

/-- Where the scanner stands between two characters. -/
inductive LexState where
  /-- Between tokens. -/
  | start
  /-- Inside a string, with the code units read so far. -/
  | str (units : List Nat)
  /-- Inside a string, after a backslash. -/
  | esc (units : List Nat)
  /-- Inside a string, after the escape mark u, with the hexadecimal digits read so far. -/
  | hex (units : List Nat) (digits : List Nat)
  /-- Inside a number, with the characters read so far. -/
  | num (st : NumState) (numeral : List Char)
  /-- Inside one of the words true, false, null, with the characters still expected. -/
  | lit (expected : List Char) (tok : Token)
deriving DecidableEq, Repr

/-- The four white-space characters of JSON. -/
def isJsonWhitespace (c : Char) : Bool :=
  c = ' ' || c = '\t' || c = '\n' || c = '\r'

/-- The value of a hexadecimal digit, in either case. -/
def hexValue (c : Char) : Option Nat :=
  if '0' ≤ c ∧ c ≤ '9' then some (c.toNat - '0'.toNat)
  else if 'a' ≤ c ∧ c ≤ 'f' then some (c.toNat - 'a'.toNat + 10)
  else if 'A' ≤ c ∧ c ≤ 'F' then some (c.toNat - 'A'.toNat + 10)
  else none

/-- A character read between tokens. -/
def lexStart (c : Char) : Option (List Token × LexState) :=
  if isJsonWhitespace c then some ([], LexState.start)
  else if c = '{' then some ([Token.lbrace], LexState.start)
  else if c = '}' then some ([Token.rbrace], LexState.start)
  else if c = '[' then some ([Token.lbracket], LexState.start)
  else if c = ']' then some ([Token.rbracket], LexState.start)
  else if c = ':' then some ([Token.colon], LexState.start)
  else if c = ',' then some ([Token.comma], LexState.start)
  else if c = '"' then some ([], LexState.str [])
  else if c = '-' then some ([], LexState.num NumState.minus [c])
  else if c = '0' then some ([], LexState.num NumState.zero [c])
  else if '1' ≤ c ∧ c ≤ '9' then some ([], LexState.num NumState.int [c])
  else if c = 't' then some ([], LexState.lit ['r', 'u', 'e'] Token.litTrue)
  else if c = 'f' then some ([], LexState.lit ['a', 'l', 's', 'e'] Token.litFalse)
  else if c = 'n' then some ([], LexState.lit ['u', 'l', 'l'] Token.litNull)
  else none

/-- The code unit that a one-character escape stands for. -/
def escapeUnit (c : Char) : Option Nat :=
  if c = '"' then some 0x22
  else if c = '\\' then some 0x5C
  else if c = '/' then some 0x2F
  else if c = 'b' then some 0x08
  else if c = 'f' then some 0x0C
  else if c = 'n' then some 0x0A
  else if c = 'r' then some 0x0D
  else if c = 't' then some 0x09
  else none

/-- Whether a number may end in this state. -/
def NumState.accepting : NumState → Bool
  | NumState.zero => true
  | NumState.int => true
  | NumState.frac => true
  | NumState.expDigits => true
  | _ => false

/-- The state a number moves to when the character continues it. -/
def numNext (st : NumState) (c : Char) : Option NumState :=
  match st with
  | NumState.minus =>
    if c = '0' then some NumState.zero
    else if '1' ≤ c ∧ c ≤ '9' then some NumState.int else none
  | NumState.zero =>
    if c = '.' then some NumState.dot
    else if c = 'e' ∨ c = 'E' then some NumState.exp else none
  | NumState.int =>
    if '0' ≤ c ∧ c ≤ '9' then some NumState.int
    else if c = '.' then some NumState.dot
    else if c = 'e' ∨ c = 'E' then some NumState.exp else none
  | NumState.dot =>
    if '0' ≤ c ∧ c ≤ '9' then some NumState.frac else none
  | NumState.frac =>
    if '0' ≤ c ∧ c ≤ '9' then some NumState.frac
    else if c = 'e' ∨ c = 'E' then some NumState.exp else none
  | NumState.exp =>
    if c = '+' ∨ c = '-' then some NumState.expSign
    else if '0' ≤ c ∧ c ≤ '9' then some NumState.expDigits else none
  | NumState.expSign =>
    if '0' ≤ c ∧ c ≤ '9' then some NumState.expDigits else none
  | NumState.expDigits =>
    if '0' ≤ c ∧ c ≤ '9' then some NumState.expDigits else none

/-- One character read by the scanner: the tokens it completes and the next state,
or `none` when the text is no JSON text. -/
def lexStep (st : LexState) (c : Char) : Option (List Token × LexState) :=
  match st with
  | LexState.start => lexStart c
  | LexState.str units =>
    if c = '"' then some ([Token.str units], LexState.start)
    else if c = '\\' then some ([], LexState.esc units)
    else if c.toNat < 0x20 then none
    else some ([], LexState.str (units ++ utf16Units c))
  | LexState.esc units =>
    if c = 'u' then some ([], LexState.hex units [])
    else
      match escapeUnit c with
      | some u => some ([], LexState.str (units ++ [u]))
      | none => none
  | LexState.hex units digits =>
    match hexValue c with
    | none => none
    | some d =>
      match digits with
      | [d1, d2, d3] => some ([], LexState.str (units ++ [((d1 * 16 + d2) * 16 + d3) * 16 + d]))
      | _ => some ([], LexState.hex units (digits ++ [d]))
  | LexState.num ns numeral =>
    match numNext ns c with
    | some ns1 => some ([], LexState.num ns1 (numeral ++ [c]))
    | none =>
      if ns.accepting then
        match lexStart c with
        | some (toks, st1) => some (Token.num numeral :: toks, st1)
        | none => none
      else none
  | LexState.lit expected tok =>
    match expected with
    | [] => none
    | [e] => if c = e then some ([tok], LexState.start) else none
    | e :: rest => if c = e then some ([], LexState.lit rest tok) else none

/-- The end of the text: only white space or a complete number may precede it. -/
def lexFinish : LexState → Option (List Token)
  | LexState.start => some []
  | LexState.num ns numeral => if ns.accepting then some [Token.num numeral] else none
  | _ => none

/-- The scanner run over a text from a given state. -/
def lexFrom : LexState → List Char → Option (List Token)
  | st, [] => lexFinish st
  | st, c :: cs =>
    match lexStep st c with
    | none => none
    | some (toks, st1) =>
      match lexFrom st1 cs with
      | none => none
      | some more => some (toks ++ more)

/-- An array or object that is still open while one of its values is read. -/
inductive Frame where
  /-- An array with the items read so far. -/
  | arr (items : List Json)
  /-- An object with the members read so far and the name whose value is being read. -/
  | obj (members : List (List Nat × Json)) (key : List Nat)

/-- Where the token reader stands between two tokens. -/
inductive ParseState where
  /-- A value must start here. -/
  | value (stack : List Frame)
  /-- After an opening bracket: a value or the closing bracket. -/
  | arrStart (stack : List Frame)
  /-- After an item of an array: a comma or the closing bracket. -/
  | arrNext (items : List Json) (stack : List Frame)
  /-- After an opening brace: a name or the closing brace. -/
  | objStart (stack : List Frame)
  /-- After a comma in an object: a name. -/
  | objKey (members : List (List Nat × Json)) (stack : List Frame)
  /-- After a name: a colon. -/
  | objColon (members : List (List Nat × Json)) (key : List Nat) (stack : List Frame)
  /-- After a member of an object: a comma or the closing brace. -/
  | objNext (members : List (List Nat × Json)) (stack : List Frame)
  /-- The whole value has been read: no token may follow. -/
  | finished (v : Json)

/-- A value is complete: it is the result, or it joins the innermost open array or
object. -/
def completeValue (v : Json) : List Frame → ParseState
  | [] => ParseState.finished v
  | Frame.arr items :: stack => ParseState.arrNext (items ++ [v]) stack
  | Frame.obj members key :: stack => ParseState.objNext (members ++ [(key, v)]) stack

/-- A token read where a value must start. -/
def valueStart (tok : Token) (stack : List Frame) : Option ParseState :=
  match tok with
  | Token.litNull => some (completeValue Json.null stack)
  | Token.litTrue => some (completeValue (Json.bool true) stack)
  | Token.litFalse => some (completeValue (Json.bool false) stack)
  | Token.num numeral => some (completeValue (Json.num numeral) stack)
  | Token.str units => some (completeValue (Json.str units) stack)
  | Token.lbracket => some (ParseState.arrStart stack)
  | Token.lbrace => some (ParseState.objStart stack)
  | _ => none

/-- One token read by the token reader, or `none` when the text is no JSON text. -/
def parseStep (st : ParseState) (tok : Token) : Option ParseState :=
  match st with
  | ParseState.value stack => valueStart tok stack
  | ParseState.arrStart stack =>
    match tok with
    | Token.rbracket => some (completeValue (Json.arr []) stack)
    | _ => valueStart tok (Frame.arr [] :: stack)
  | ParseState.arrNext items stack =>
    match tok with
    | Token.comma => some (ParseState.value (Frame.arr items :: stack))
    | Token.rbracket => some (completeValue (Json.arr items) stack)
    | _ => none
  | ParseState.objStart stack =>
    match tok with
    | Token.rbrace => some (completeValue (Json.obj []) stack)
    | Token.str key => some (ParseState.objColon [] key stack)
    | _ => none
  | ParseState.objKey members stack =>
    match tok with
    | Token.str key => some (ParseState.objColon members key stack)
    | _ => none
  | ParseState.objColon members key stack =>
    match tok with
    | Token.colon => some (ParseState.value (Frame.obj members key :: stack))
    | _ => none
  | ParseState.objNext members stack =>
    match tok with
    | Token.comma => some (ParseState.objKey members stack)
    | Token.rbrace => some (completeValue (Json.obj members) stack)
    | _ => none
  | ParseState.finished _ => none

/-- The token reader run over a token list from a given state. -/
def parseFrom : ParseState → List Token → Option Json
  | ParseState.finished v, [] => some v
  | _, [] => none
  | st, tok :: toks =>
    match parseStep st tok with
    | none => none
    | some st1 => parseFrom st1 toks

/-- The function `JSON.parse(text)`; `none` stands for the `SyntaxError` it throws
on a text that is no JSON text. -/
def jsonParse (text : String) : Option Json :=
  match lexFrom LexState.start text.data with
  | none => none
  | some toks => parseFrom (ParseState.value []) toks

/-! ## Property reads on parsed values -/

/-- The outcome of a property read `value.name`. -/
inductive PropertyRead where
  /-- The read throws a `TypeError`: the value is `null`. -/
  | typeError
  /-- The read yields `undefined`. -/
  | undefined
  /-- The read yields a value. -/
  | value (v : Json)
deriving Repr

/-- The value of the last member with the given name: when a name occurs twice in
an object of a JSON text, `JSON.parse` keeps the later value. -/
def lastMember (name : List Nat) : List (List Nat × Json) → Option Json
  | [] => none
  | (key, v) :: rest =>
    match lastMember name rest with
    | some w => some w
    | none => if key = name then some v else none

/-- The property read `value.name` on a value that `JSON.parse` returned, for a
name that no prototype defines and that is neither `length` nor an index (here
`messages`, `error` and `message`): an own member of an object, `undefined` on
every other value, and a `TypeError` on `null`. -/
def readProperty (value : Json) (name : String) : PropertyRead :=
  match value with
  | Json.null => PropertyRead.typeError
  | Json.obj members =>
    match lastMember (toJsString name) members with
    | some w => PropertyRead.value w
    | none => PropertyRead.undefined
  | _ => PropertyRead.undefined

/-! ## `JSON.stringify` of the error objects -/

/-- The hexadecimal digit of a value below 16, in lower case. -/
def hexDigit (n : Nat) : Char :=
  if n < 10 then Char.ofNat ('0'.toNat + n) else Char.ofNat ('a'.toNat + (n - 10))

/-- The text that `JSON.stringify` writes for one character of a string. -/
def quoteChar (c : Char) : List Char :=
  if c = '"' then ['\\', '"']
  else if c = '\\' then ['\\', '\\']
  else if c.toNat = 0x08 then ['\\', 'b']
  else if c.toNat = 0x09 then ['\\', 't']
  else if c.toNat = 0x0A then ['\\', 'n']
  else if c.toNat = 0x0C then ['\\', 'f']
  else if c.toNat = 0x0D then ['\\', 'r']
  else if c.toNat < 0x20 then ['\\', 'u', '0', '0', hexDigit (c.toNat / 16), hexDigit (c.toNat % 16)]
  else [c]

/-- The text that `JSON.stringify` writes for a string. -/
def quoteJSONString (s : String) : String :=
  "\"" ++ String.mk (s.data.flatMap quoteChar) ++ "\""

/-- The expression `JSON.stringify({ error: message })`. -/
def stringifyError (message : String) : String :=
  "\x7b\"error\":" ++ quoteJSONString message ++ "\x7d"

/-! ## JavaScript numbers

A numeral is read as the nearest double and written back as the shortest decimal
that denotes that double. Everything is computed on natural numbers and integers. -/

/-- The value of a decimal digit. -/
def digitValue (c : Char) : Nat := c.toNat - '0'.toNat

/-- Whether a character is a decimal digit. -/
def isDecimalDigit (c : Char) : Bool := decide ('0' ≤ c) && decide (c ≤ '9')

/-- The natural number written by a list of decimal digits. -/
def digitsToNat (cs : List Char) : Nat := cs.foldl (fun n c => 10 * n + digitValue c) 0

/-- A numeral read as a sign and the magnitude `digits × 10 ^ exponent`. -/
structure Decimal where
  negative : Bool
  digits : Nat
  exponent : Int
deriving DecidableEq, Repr

/-- The parts of a numeral of the JSON grammar. -/
def readNumeral (numeral : List Char) : Decimal :=
  let unsigned := if numeral.head? = some '-' then numeral.drop 1 else numeral
  let intPart := unsigned.takeWhile isDecimalDigit
  let afterInt := unsigned.dropWhile isDecimalDigit
  let fracPart := if afterInt.head? = some '.' then (afterInt.drop 1).takeWhile isDecimalDigit else []
  let afterFrac := if afterInt.head? = some '.' then (afterInt.drop 1).dropWhile isDecimalDigit else afterInt
  let expPart := afterFrac.drop 1
  let expDigits :=
    if expPart.head? = some '-' ∨ expPart.head? = some '+' then expPart.drop 1 else expPart
  let exp : Int :=
    if expPart.head? = some '-' then -(digitsToNat expDigits : Int) else (digitsToNat expDigits : Int)
  { negative := numeral.head? = some '-'
    digits := digitsToNat (intPart ++ fracPart)
    exponent := exp - (fracPart.length : Int) }

/-- The magnitude of a double: zero, `m × 2 ^ e`, or infinity. -/
inductive Magnitude where
  | zero
  | finite (m : Nat) (e : Int)
  | infinite
deriving DecidableEq, Repr

/-- The quotient `num / den` rounded to the nearest integer, a tie to the even one. -/
def roundHalfEven (num den : Nat) : Nat :=
  if 2 * (num % den) < den then num / den
  else if den < 2 * (num % den) then num / den + 1
  else if (num / den) % 2 = 0 then num / den
  else num / den + 1

/-- The number of decimal digits of a positive natural number. -/
def decimalLength (n : Nat) : Nat := (Nat.toDigits 10 n).length

/-- The integer `b` with `2 ^ b ≤ n < 2 ^ (b + 1)`, for `n` positive and a fuel of at
least `n`. -/
def log2From : Nat → Nat → Nat
  | 0, _ => 0
  | fuel + 1, n => if n < 2 then 0 else log2From fuel (n / 2) + 1

/-- The integer `b` with `2 ^ b ≤ n < 2 ^ (b + 1)`, for `n` positive. -/
def log2Floor (n : Nat) : Nat := log2From n n

/-- The double nearest to `digits × 10 ^ exponent`, a tie going to the even
significand: what `JSON.parse` and the JavaScript parser make of a decimal numeral. -/
def toDouble (digits : Nat) (exponent : Int) : Magnitude :=
  if digits = 0 then Magnitude.zero
  else if (decimalLength digits : Int) + exponent > 310 then Magnitude.infinite
  else if (decimalLength digits : Int) + exponent < -330 then Magnitude.zero
  else
    let num := digits * 10 ^ exponent.toNat
    let den := 10 ^ (-exponent).toNat
    let e0 : Int := (log2Floor num : Int) - (log2Floor den : Int) - 52
    let e1 : Int := if num * 2 ^ (-e0).toNat / (den * 2 ^ e0.toNat) < 2 ^ 52 then e0 - 1 else e0
    let e : Int := max e1 (-1074)
    let m := roundHalfEven (num * 2 ^ (-e).toNat) (den * 2 ^ e.toNat)
    if m = 0 then Magnitude.zero
    else if m = 2 ^ 53 then
      if e + 1 > 971 then Magnitude.infinite else Magnitude.finite (2 ^ 52) (e + 1)
    else if e > 971 then Magnitude.infinite
    else Magnitude.finite m e

/-- The least `j` from `start` on with `2 ^ bits ≤ m × 10 ^ j`. -/
def leastScale (m bits : Nat) : Nat → Nat → Nat
  | 0, j => j
  | fuel + 1, j => if 2 ^ bits ≤ m * 10 ^ j then j else leastScale m bits fuel (j + 1)

/-- The integer `n` with `10 ^ (n - 1) ≤ m × 2 ^ e < 10 ^ n`, for `m` positive. -/
def decimalExponent (m : Nat) (e : Int) : Int :=
  if 0 ≤ e then (decimalLength (m * 2 ^ e.toNat) : Int)
  else if 1 ≤ m / 2 ^ (-e).toNat then (decimalLength (m / 2 ^ (-e).toNat) : Int)
  else 1 - (leastScale m (-e).toNat (-e).toNat 1 : Int)

/-- The decimal `c × 10 ^ p` on the scale that it shares with `boundScaled`, in units of
`2 ^ u`. -/
def candidateScaled (c : Nat) (p u : Int) : Nat := c * 10 ^ p.toNat * 2 ^ (-u).toNat

/-- The binary fraction `x × 2 ^ u` on the scale that it shares with `candidateScaled`. -/
def boundScaled (x : Nat) (p u : Int) : Nat := x * 2 ^ u.toNat * 10 ^ (-p).toNat

/-- Whether the decimal `c × 10 ^ p` rounds to the double `m × 2 ^ e`: it lies between
the midpoints to the two neighbouring doubles, the midpoints included when `m` is
even. -/
def roundsTo (m : Nat) (e : Int) (c : Nat) (p : Int) : Bool :=
  let lo := 4 * m - (if m = 2 ^ 52 ∧ -1074 < e then 1 else 2)
  let hi := 4 * m + 2
  if m % 2 = 0 then
    decide (boundScaled lo p (e - 2) ≤ candidateScaled c p (e - 2)) &&
      decide (candidateScaled c p (e - 2) ≤ boundScaled hi p (e - 2))
  else
    decide (boundScaled lo p (e - 2) < candidateScaled c p (e - 2)) &&
      decide (candidateScaled c p (e - 2) < boundScaled hi p (e - 2))

/-- The distance between the decimal `c × 10 ^ p` and the double `m × 2 ^ e`, on the
common scale. -/
def distance (m : Nat) (e : Int) (c : Nat) (p : Int) : Nat :=
  if boundScaled (4 * m) p (e - 2) ≤ candidateScaled c p (e - 2) then
    candidateScaled c p (e - 2) - boundScaled (4 * m) p (e - 2)
  else boundScaled (4 * m) p (e - 2) - candidateScaled c p (e - 2)

/-- The candidate with `k` digits that rounds to the double and is closest to it. -/
def candidateWith (m : Nat) (e : Int) (k : Nat) : Option (Nat × Int) :=
  let p : Int := decimalExponent m e - (k : Int)
  let below := m * 2 ^ e.toNat * 10 ^ (-p).toNat / (2 ^ (-e).toNat * 10 ^ p.toNat)
  let above := below + 1
  let okBelow := decide (10 ^ (k - 1) ≤ below) && roundsTo m e below p
  let okAbove := decide (above ≤ 10 ^ k) && roundsTo m e above p
  if okBelow && okAbove then
    if distance m e below p < distance m e above p then some (below, p)
    else if distance m e above p < distance m e below p then some (above, p)
    else if below % 2 = 0 then some (below, p) else some (above, p)
  else if okBelow then some (below, p)
  else if okAbove then some (above, p)
  else none

/-- The first digit count of the list for which a decimal rounds to the double, with
that decimal. -/
def shortestFrom (m : Nat) (e : Int) : List Nat → Option (Nat × Int)
  | [] => none
  | k :: ks =>
    match candidateWith m e k with
    | some r => some r
    | none => shortestFrom m e ks

/-- A digit list without its trailing zeros. -/
def dropTrailingZeros : List Char → List Char
  | [] => []
  | c :: cs =>
    match dropTrailingZeros cs with
    | [] => if c = '0' then [] else [c]
    | rest => c :: rest

/-- The text of `Number.prototype.toString` for the digits `ds` of a decimal whose
value lies between `10 ^ (n - 1)` and `10 ^ n`. -/
def formatDecimal (ds : List Char) (n : Int) : List Char :=
  if (ds.length : Int) ≤ n ∧ n ≤ 21 then ds ++ List.replicate (n.toNat - ds.length) '0'
  else if 0 < n ∧ n ≤ 21 then ds.take n.toNat ++ ['.'] ++ ds.drop n.toNat
  else if -6 < n ∧ n ≤ 0 then ['0', '.'] ++ List.replicate (-n).toNat '0' ++ ds
  else
    (match ds with
      | [] => []
      | [d] => [d]
      | d :: rest => d :: '.' :: rest)
    ++ ['e', if 0 ≤ n - 1 then '+' else '-'] ++ Nat.toDigits 10 (n - 1).natAbs

/-- The text that `JSON.stringify` writes for the number a numeral denotes: the
shortest decimal that reads back as the same double, and `none` for a numeral
beyond the range of the doubles, whose value is `Infinity`. -/
def numberToString (numeral : List Char) : Option (List Char) :=
  match toDouble (readNumeral numeral).digits (readNumeral numeral).exponent with
  | Magnitude.zero => some ['0']
  | Magnitude.infinite => none
  | Magnitude.finite m e =>
    match shortestFrom m e (List.range' 1 17) with
    | none => none
    | some (c, p) =>
      some ((if (readNumeral numeral).negative then ['-'] else [])
        ++ formatDecimal (dropTrailingZeros (Nat.toDigits 10 c))
            (p + ((Nat.toDigits 10 c).length : Int)))

/-! ## `JSON.stringify` of parsed values -/

/-- The escape that `JSON.stringify` writes for a surrogate code unit that has no partner. -/
def escapeUnit16 (u : Nat) : List Char :=
  ['\\', 'u', hexDigit (u / 4096 % 16), hexDigit (u / 256 % 16), hexDigit (u / 16 % 16),
    hexDigit (u % 16)]

/-- The text that `JSON.stringify` writes for the code units of a string, without the
quotation marks around it. -/
def quoteUnits : List Nat → List Char
  | [] => []
  | [u] => if 0xD800 ≤ u ∧ u ≤ 0xDFFF then escapeUnit16 u else quoteChar (Char.ofNat u)
  | u :: v :: rest =>
    if 0xD800 ≤ u ∧ u ≤ 0xDBFF ∧ 0xDC00 ≤ v ∧ v ≤ 0xDFFF then
      Char.ofNat (0x10000 + (u - 0xD800) * 1024 + (v - 0xDC00)) :: quoteUnits rest
    else if 0xD800 ≤ u ∧ u ≤ 0xDFFF then escapeUnit16 u ++ quoteUnits (v :: rest)
    else quoteChar (Char.ofNat u) ++ quoteUnits (v :: rest)

/-- Texts joined by commas. -/
def joinComma : List (List Char) → List Char
  | [] => []
  | [t] => t
  | t :: rest => t ++ ',' :: joinComma rest

/-- A property is defined on an object: a name already present keeps its place and
takes the new value, a new name goes last. -/
def defineProperty (key : List Nat) (value : List Char) :
    List (List Nat × List Char) → List (List Nat × List Char)
  | [] => [(key, value)]
  | (k, t) :: rest =>
    if k = key then (k, value) :: rest else (k, t) :: defineProperty key value rest

/-- The index that a property name stands for, if it is an array index: a numeral
without sign or leading zero of a number below 4294967295. -/
def arrayIndex (key : List Nat) : Option Nat :=
  if key = [0x30] then some 0
  else if key.length ≤ 10 ∧ key.all (fun u => decide (0x30 ≤ u) && decide (u ≤ 0x39))
      ∧ key.head? ≠ some 0x30 ∧ key ≠ []
      ∧ key.foldl (fun n u => 10 * n + (u - 0x30)) 0 < 4294967295 then
    some (key.foldl (fun n u => 10 * n + (u - 0x30)) 0)
  else none

/-- A property placed among properties sorted by index. -/
def insertByIndex (i : Nat) (p : List Nat × List Char) :
    List (Nat × (List Nat × List Char)) → List (Nat × (List Nat × List Char))
  | [] => [(i, p)]
  | (j, q) :: rest => if i < j then (i, p) :: (j, q) :: rest else (j, q) :: insertByIndex i p rest

/-- The properties whose names are array indices, in ascending order of index. -/
def indexProperties : List (List Nat × List Char) → List (Nat × (List Nat × List Char))
  | [] => []
  | p :: rest =>
    match arrayIndex p.1 with
    | some i => insertByIndex i p (indexProperties rest)
    | none => indexProperties rest

/-- The own properties of an object in the order of enumeration: array indices in
ascending order, then the other names in the order of their creation. -/
def propertyOrder (props : List (List Nat × List Char)) : List (List Nat × List Char) :=
  (indexProperties props).map (fun q => q.2) ++ props.filter (fun p => (arrayIndex p.1).isNone)

/-- One member as `JSON.stringify` writes it. -/
def memberText (p : List Nat × List Char) : List Char :=
  '"' :: quoteUnits p.1 ++ '"' :: ':' :: p.2

mutual
/-- The text that `JSON.stringify` writes for a value read by `JSON.parse`. -/
def jsonStringify : Json → List Char
  | Json.null => ['n', 'u', 'l', 'l']
  | Json.bool true => ['t', 'r', 'u', 'e']
  | Json.bool false => ['f', 'a', 'l', 's', 'e']
  | Json.num numeral =>
    match numberToString numeral with
    | some text => text
    | none => ['n', 'u', 'l', 'l']
  | Json.str units => '"' :: quoteUnits units ++ ['"']
  | Json.arr items => '[' :: joinComma (stringifyItems items) ++ [']']
  | Json.obj members =>
    '{' :: joinComma
      ((propertyOrder
        ((stringifyMembers members).foldl (fun props p => defineProperty p.1 p.2 props) [])).map
        memberText) ++ ['}']
/-- The texts of the items of an array. -/
def stringifyItems : List Json → List (List Char)
  | [] => []
  | v :: rest => jsonStringify v :: stringifyItems rest
/-- The members of an object with the texts of their values. -/
def stringifyMembers : List (List Nat × Json) → List (List Nat × List Char)
  | [] => []
  | (key, v) :: rest => (key, jsonStringify v) :: stringifyMembers rest
end

/-! ## Relay service (`api.js`) -/

/-- The incoming request as the handler sees it: method, URL and the chunks of the
body in their order of arrival. -/
structure IncomingMessage where
  method : String
  url : String
  chunks : List (List Nat)
deriving DecidableEq, Repr

/-- The response the handler writes: status code, headers and the body that is
sent, which is the string given to `res.end`, or the empty string when `res.end`
has no argument or when the response has no body (see `hasBody`). -/
structure ServerResponse where
  statusCode : Nat
  headers : List (String × String)
  body : String
deriving DecidableEq, Repr

/-- The outbound request: the `options` given to `https.request`, with the three
headers, and the text `openaiData` written to it. -/
structure ClientRequest where
  hostname : String
  port : Nat
  path : String
  method : String
  contentType : String
  authorization : String
  contentLength : Nat
  data : String
deriving DecidableEq, Repr

/-- What happens to the outbound request: it emits `error`, or a response arrives
with a status code and a body in chunks. -/
inductive UpstreamResult where
  | error
  | response (statusCode : Nat) (chunks : List (List Nat))
deriving DecidableEq, Repr

/-- What the handler did for one request: the response it wrote and the outbound
request it made, if any. -/
structure Exchange where
  response : ServerResponse
  outbound : Option ClientRequest
deriving DecidableEq, Repr

/-- The three headers set by `res.setHeader` at the top of the handler. -/
def corsHeaders : List (String × String) :=
  [ ("Access-Control-Allow-Origin", "*"),
    ("Access-Control-Allow-Methods", "GET, POST, PUT, DELETE, OPTIONS"),
    ("Access-Control-Allow-Headers", "Content-Type, Authorization") ]

/-- Whether the string given to `res.end` is sent: Node sends no body in answer to
a HEAD request, nor with the status codes 204, 304 and 100 to 199. -/
def hasBody (method : String) (statusCode : Nat) : Bool :=
  !(decide (method = "HEAD") || decide (statusCode = 204) || decide (statusCode = 304)
    || (decide (100 ≤ statusCode) && decide (statusCode ≤ 199)))

/-- The calls `res.writeHead(status, { 'Content-Type': 'application/json' })` and
`res.end(body)`, in answer to a request with the given method. -/
def jsonResponse (method : String) (status : Nat) (body : String) : ServerResponse :=
  { statusCode := status
    headers := corsHeaders ++ [("Content-Type", "application/json")]
    body := if hasBody method status then body else "" }

/-- The string accumulated by `body += chunk.toString()` over the chunks. -/
def collectChunks (chunks : List (List Nat)) : String :=
  chunks.foldl (fun body chunk => body ++ bufferToString chunk) ""

/-- Whether a header value holds a character that `https.request` refuses (it then
throws): anything but the tab and the characters U+0020 to U+007E and U+0080 to
U+00FF. -/
def invalidHeaderValue (value : String) : Bool :=
  value.data.any fun c =>
    !(c.toNat = 0x09 || (0x20 ≤ c.toNat && c.toNat ≤ 0x7E) || (0x80 ≤ c.toNat && c.toNat ≤ 0xFF))

/-- The `catch` clause of the handler, which answers a POST request. -/
def invalidRequest : Exchange :=
  { response := jsonResponse "POST" 400 (stringifyError "Invalid request format")
    outbound := none }

/-- The branch taken when `!OPENAI_API_KEY` holds, which answers a POST request. -/
def keyNotConfigured : Exchange :=
  { response := jsonResponse "POST" 500 (stringifyError "OpenAI API key not configured")
    outbound := none }

/-- The object literal given to `JSON.stringify` to make `openaiData`, as the list
of its properties in source order; `messages` is the value read from the request,
`none` when that read gave `undefined`. The numbers are the numerals of the source. -/
def openaiObject (messages : Option Json) : List (String × Option Json) :=
  [ ("model", some (Json.str (toJsString "gpt-4o"))),
    ("messages", messages),
    ("max_tokens", some (Json.num ['2', '0', '0', '0'])),
    ("temperature", some (Json.num ['0', '.', '7'])) ]

/-- The text that `JSON.stringify` writes for one property of an object literal;
a property whose value is `undefined` is left out. -/
def propertyText (property : String × Option Json) : Option (List Char) :=
  match property.2 with
  | none => none
  | some v => some ((quoteJSONString property.1).data ++ ':' :: jsonStringify v)

/-- The text that `JSON.stringify` writes for an object literal whose property
names are distinct and none of them an array index. -/
def stringifyLiteral (properties : List (String × Option Json)) : String :=
  String.mk ('{' :: joinComma (properties.filterMap propertyText) ++ ['}'])

/-- The constant `openaiData`: the text of `JSON.stringify` for the object literal. -/
def openaiData (messages : Option Json) : String :=
  stringifyLiteral (openaiObject messages)

/-- The outbound request made from `options` and `openaiData`; the `Content-Length`
is `Buffer.byteLength(openaiData)`, the number of UTF-8 bytes of the text. -/
def openaiReq (key : String) (messages : Option Json) : ClientRequest :=
  { hostname := "api.openai.com"
    port := 443
    path := "/v1/chat/completions"
    method := "POST"
    contentType := "application/json"
    authorization := "Bearer " ++ key
    contentLength := (utf8Encode (openaiData messages)).length
    data := openaiData messages }

/-- The callbacks attached to the outbound request, which answer a POST request:
the `error` listener, and the response callback with its `data` and `end`
listeners. -/
def relayUpstream : UpstreamResult → ServerResponse
  | UpstreamResult.error =>
    jsonResponse "POST" 500 (stringifyError "Failed to connect to OpenAI")
  | UpstreamResult.response statusCode chunks =>
    jsonResponse "POST" statusCode (collectChunks chunks)

/-- The statements from `https.request(options, ...)` to `openaiReq.end()`. When the
`Authorization` value holds a character that `https.request` refuses, the call
throws inside the `try` block and the `catch` clause answers. -/
def forward (key : String) (https : ClientRequest → UpstreamResult) (messages : Option Json) :
    Exchange :=
  if invalidHeaderValue ("Bearer " ++ key) then invalidRequest
  else
    { response := relayUpstream (https (openaiReq key messages))
      outbound := some (openaiReq key messages) }

/-- The `end` listener of a `POST /api/generate` request, run on the accumulated
body. `OPENAI_API_KEY` is `none` when the variable is unset; `https` tells what
happens to the outbound request. -/
def onEnd (OPENAI_API_KEY : Option String) (https : ClientRequest → UpstreamResult)
    (body : String) : Exchange :=
  match jsonParse body with
  | none => invalidRequest
  | some requestData =>
    match OPENAI_API_KEY with
    | none => keyNotConfigured
    | some key =>
      if key = "" then keyNotConfigured
      else
        match readProperty requestData "messages" with
        | PropertyRead.typeError => invalidRequest
        | PropertyRead.undefined => forward key https none
        | PropertyRead.value messages => forward key https (some messages)

/-- The request handler given to `http.createServer`. -/
def handleRequest (OPENAI_API_KEY : Option String) (https : ClientRequest → UpstreamResult)
    (req : IncomingMessage) : Exchange :=
  if req.method = "OPTIONS" then
    { response := { statusCode := 200, headers := corsHeaders, body := "" }
      outbound := none }
  else if req.method = "POST" ∧ req.url = "/api/generate" then
    onEnd OPENAI_API_KEY https (collectChunks req.chunks)
  else
    { response := jsonResponse req.method 404 (stringifyError "Not found")
      outbound := none }

/-! ## Client error branch (`script.js`, `callOpenAI`) -/

/-- The message of the error that `callOpenAI` throws for a response that is not
OK. -/
inductive CallError where
  /-- The message is this string. -/
  | message (text : List Nat)
  /-- The `message` property is a number: the generic message if the number is zero,
  and otherwise the prefix of `callOpenAI` followed by the decimal text of the number. -/
  | ofNumber (numeral : List Char)
  /-- The `message` property is an array: the prefix of `callOpenAI` followed by the
  text of `Array.prototype.toString`. -/
  | ofArray (items : List Json)
  /-- The body is the JSON value `null`: the prefix of `callOpenAI` followed by the
  message of the `TypeError` of the property read. -/
  | ofNullBody
deriving Repr

/-- The template literal of the `catch` clause of `callOpenAI`. -/
def failedToGenerate (message : List Nat) : List Nat :=
  toJsString "Failed to generate content: " ++ message

/-- The generic message of the error branch, with the status code in decimal, as
rethrown by the `catch` clause. -/
def genericError (status : Nat) : CallError :=
  CallError.message (failedToGenerate (toJsString ("HTTP error! status: " ++ toString status)))

/-- The expression `errorData.error?.message || generic` and the two `throw`
statements around it, for the value `errorData`. -/
def errorOf (status : Nat) (errorData : Json) : CallError :=
  match readProperty errorData "error" with
  | PropertyRead.typeError => CallError.ofNullBody
  | PropertyRead.undefined => genericError status
  | PropertyRead.value error =>
    -- the optional chaining `?.` yields `undefined` when `error` is `null`
    match readProperty error "message" with
    | PropertyRead.typeError => genericError status
    | PropertyRead.undefined => genericError status
    | PropertyRead.value Json.null => genericError status
    | PropertyRead.value (Json.bool false) => genericError status
    | PropertyRead.value (Json.bool true) => CallError.message (failedToGenerate (toJsString "true"))
    | PropertyRead.value (Json.str []) => genericError status
    | PropertyRead.value (Json.str (u :: us)) => CallError.message (failedToGenerate (u :: us))
    | PropertyRead.value (Json.num numeral) => CallError.ofNumber numeral
    | PropertyRead.value (Json.arr items) => CallError.ofArray items
    | PropertyRead.value (Json.obj _) =>
      CallError.message (failedToGenerate (toJsString "[object Object]"))

/-- The method `callOpenAI` from the arrival of a response that is not OK: the body
is read by `response.json()`, an unreadable body counts as the empty object, and
the error is thrown and rethrown by the `catch` clause. -/
def callOpenAIError (status : Nat) (body : String) : CallError :=
  match jsonParse body with
  | none => errorOf status (Json.obj [])
  | some errorData => errorOf status errorData

/-! ## Vocabulary of the specification -/

/-- The five defined categories, each with the label the specification gives it:
the name in upper case with its hyphen replaced by a space. -/
def categoryLabels : List (String × String) :=
  [ ("slogan", "SLOGAN"),
    ("ad-copy", "AD COPY"),
    ("product-description", "PRODUCT DESCRIPTION"),
    ("hashtags", "HASHTAGS"),
    ("email", "EMAIL") ]

/-- The request of the specification's examples: a POST to `/api/generate` whose
body, sent in one chunk, is a JSON object with one user message. -/
def exampleRequest : IncomingMessage :=
  { method := "POST"
    url := "/api/generate"
    chunks := [utf8Encode "\x7b\"messages\":[\x7b\"role\":\"user\",\"content\":\"hi\"\x7d]\x7d"] }

/-- The `messages` value of the body of `exampleRequest`. -/
def exampleMessages : Json :=
  Json.arr
    [ Json.obj
        [ (toJsString "role", Json.str (toJsString "user")),
          (toJsString "content", Json.str (toJsString "hi")) ] ]

/-- The value that `JSON.parse` returns for the body of `exampleRequest`. -/
def exampleRequestData : Json :=
  Json.obj [(toJsString "messages", exampleMessages)]

/-- The `messages` of a caller's body, in the words of the specification: the value
of the member named `messages` of the object that the body holds, the last one
when the name occurs more than once, and nothing when the body holds no object or
the object has no such member. -/
def callerMessages (requestData : Json) : Option Json :=
  match requestData with
  | Json.obj members =>
    (members.reverse.find? (fun p => decide (p.1 = toJsString "messages"))).map (fun p => p.2)
  | _ => none

/-- The two texts whose bytes are the chunks of `overridingRequest`. -/
def overridingTexts : List String :=
  [ "\x7b\"messages\":\"ignored\",\"messages\":[\x7b\"role\":\"user\",",
    "\"content\":\"hi\"\x7d],\"model\":\"gpt-3.5-turbo\",\"max_tokens\":5,\"temperature\":2\x7d" ]

/-- A request with the messages of `exampleRequest`, given after an earlier
`messages` member and followed by another model, token limit and temperature, its
body sent in two chunks. -/
def overridingRequest : IncomingMessage :=
  { method := "POST"
    url := "/api/generate"
    chunks := overridingTexts.map utf8Encode }

/-- The value that `JSON.parse` returns for the body of `overridingRequest`. -/
def overridingRequestData : Json :=
  Json.obj
    [ (toJsString "messages", Json.str (toJsString "ignored")),
      (toJsString "messages", exampleMessages),
      (toJsString "model", Json.str (toJsString "gpt-3.5-turbo")),
      (toJsString "max_tokens", Json.num ['5']),
      (toJsString "temperature", Json.num ['2']) ]

/-- A request whose body, the JSON object with the one-character string `é` as its
`messages`, is cut into two chunks between the two bytes of that character. -/
def splitCharacterRequest : IncomingMessage :=
  { method := "POST"
    url := "/api/generate"
    chunks := [utf8Encode "\x7b\"messages\":\"" ++ [0xC3], [0xA9] ++ utf8Encode "\"\x7d"] }

/-- A request like `exampleRequest` whose body is the text `not json`. -/
def notJsonRequest : IncomingMessage :=
  { method := "POST"
    url := "/api/generate"
    chunks := [utf8Encode "not json"] }

/-- A POST to `/api/generate` whose body is the given text, sent in one chunk. -/
def requestWithBody (text : String) : IncomingMessage :=
  { method := "POST"
    url := "/api/generate"
    chunks := [utf8Encode text] }

/-! ## Properties of the prompt builder -/

set_option maxRecDepth 100000

/-- Each hole of a nine-part concatenation is a contiguous part of the whole. -/
theorem holes_infix (a l b d c i e f g : String) :
    l.data <:+: (a ++ l ++ b ++ d ++ c ++ i ++ e ++ f ++ g).data ∧
    d.data <:+: (a ++ l ++ b ++ d ++ c ++ i ++ e ++ f ++ g).data ∧
    i.data <:+: (a ++ l ++ b ++ d ++ c ++ i ++ e ++ f ++ g).data ∧
    f.data <:+: (a ++ l ++ b ++ d ++ c ++ i ++ e ++ f ++ g).data := by
  simp only [String.data_append]
  refine ⟨⟨a.data, b.data ++ d.data ++ c.data ++ i.data ++ e.data ++ f.data ++ g.data, ?_⟩,
    ⟨a.data ++ l.data ++ b.data, c.data ++ i.data ++ e.data ++ f.data ++ g.data, ?_⟩,
    ⟨a.data ++ l.data ++ b.data ++ d.data ++ c.data, e.data ++ f.data ++ g.data, ?_⟩,
    ⟨a.data ++ l.data ++ b.data ++ d.data ++ c.data ++ i.data ++ e.data, g.data, ?_⟩⟩ <;>
  simp only [List.append_assoc]

/-- C1: for each of the five defined categories, with the label the specification
gives it, and for every description, `buildPrompt` returns the skeleton filled in
order with the preamble, the label, the description, the instruction text and the
format text of the category and the requirements; the label, the description, the
instruction and the format each occur in it verbatim. -/
theorem buildPrompt_defined_category (upperTable : Char → List Char) (c label d : String)
    (hc : (c, label) ∈ categoryLabels) :
    ∃ (p : PromptData) (out : String),
      prompts.lookup c = some p ∧
      buildPrompt upperTable c d = some out ∧
      out =
        "You are a professional marketing copywriter with expertise in creating high-converting content. \n\nCONTENT TYPE: "
          ++ label ++ "\n\nPRODUCT/SERVICE DESCRIPTION:\n" ++ d
          ++ "\n\nTASK: " ++ p.instruction
          ++ "\n\nFORMAT: " ++ p.format
          ++ "\n\nREQUIREMENTS:\n- Make it professional and engaging\n- Ensure it\x27s suitable for the target audience\n- Focus on benefits and value proposition\n- Use persuasive language that drives action\n- Keep the tone appropriate for marketing materials\n\nPlease provide only the requested content without any additional explanations or meta-commentary." ∧
      label.data <:+: out.data ∧
      d.data <:+: out.data ∧
      p.instruction.data <:+: out.data ∧
      p.format.data <:+: out.data := by
  simp only [categoryLabels, List.mem_cons, Prod.mk.injEq, List.mem_singleton, List.not_mem_nil,
    or_false] at hc
  rcases hc with ⟨rfl, rfl⟩ | ⟨rfl, rfl⟩ | ⟨rfl, rfl⟩ | ⟨rfl, rfl⟩ | ⟨rfl, rfl⟩ <;>
  exact ⟨_, _, rfl, rfl, rfl, holes_infix _ _ _ _ _ _ _ _ _⟩

/-- C1, on the example of the specification: the prompt built for the category
email and the description of a reusable coffee mug holds the label EMAIL, the
description and the instruction text of the email category. -/
theorem buildPrompt_email_witness :
    ("email", "EMAIL") ∈ categoryLabels ∧
    ∃ out : String,
      buildPrompt (fun ch => [ch]) "email" "A reusable coffee mug" = some out ∧
      "EMAIL".data <:+: out.data ∧
      "A reusable coffee mug".data <:+: out.data ∧
      "Write a complete marketing email including subject line, body copy, and call-to-action. Make it engaging and conversion-focused.".data
        <:+: out.data := by
  have hc : ("email", "EMAIL") ∈ categoryLabels := by decide
  refine ⟨hc, ?_⟩
  obtain ⟨p, out, hp, hout, -, hl, hd, hi, -⟩ :=
    buildPrompt_defined_category (fun ch => [ch]) "email" "EMAIL" "A reusable coffee mug" hc
  have hp2 : p = { instruction := "Write a complete marketing email including subject line, body copy, and call-to-action. Make it engaging and conversion-focused."
                   format := "Provide: Subject Line, Email Body (with greeting, main content, and closing), and Call-to-Action." } :=
    (Option.some.inj hp).symm
  subst hp2
  exact ⟨out, hout, hl, hd, hi⟩

/-- Every category that is neither a name of the table nor a name inherited from
`Object.prototype` gets the slogan pair: the prompt is the template filled with
the slogan instruction and the slogan format. -/
theorem buildPrompt_fallback (upperTable : Char → List Char) (c d : String)
    (hown : prompts.lookup c = none) (hproto : c ∉ objectPrototypeKeys) :
    buildPrompt upperTable c d =
      some (promptTemplate (contentTypeLabel upperTable c) d
        "Create 3-5 catchy, memorable slogans that capture the essence of this product/service. Make them short, impactful, and brand-worthy."
        "List each slogan on a new line with a bullet point.") := by
  have hget : promptsGet c = none := by
    simp only [promptsGet, hown, if_neg hproto]
  simp only [buildPrompt, hget, orElseJs]
  rfl

/-- The fallback on the two unknown categories `nonsense` and the empty string. -/
theorem buildPrompt_fallback_witness :
    buildPrompt (fun ch => [ch]) "nonsense" "x" =
      some (promptTemplate "NONSENSE" "x"
        "Create 3-5 catchy, memorable slogans that capture the essence of this product/service. Make them short, impactful, and brand-worthy."
        "List each slogan on a new line with a bullet point.") ∧
    buildPrompt (fun ch => [ch]) "" "x" =
      some (promptTemplate "" "x"
        "Create 3-5 catchy, memorable slogans that capture the essence of this product/service. Make them short, impactful, and brand-worthy."
        "List each slogan on a new line with a bullet point.") :=
  ⟨buildPrompt_fallback (fun ch => [ch]) "nonsense" "x" (by decide) (by decide),
   buildPrompt_fallback (fun ch => [ch]) "" "x" (by decide) (by decide)⟩

/-- C2, at the category `constructor`: the name is none of the five categories,
yet the lookup finds the member inherited from `Object.prototype`, so the slogan
pair is not used: the TASK and FORMAT lines of the prompt read `undefined`, and
the prompt is not the template filled with the slogan instruction and format. -/
theorem buildPrompt_constructor_undefined (upperTable : Char → List Char) :
    prompts.lookup "constructor" = none ∧
    buildPrompt upperTable "constructor" "x" =
      some "You are a professional marketing copywriter with expertise in creating high-converting content. \n\nCONTENT TYPE: CONSTRUCTOR\n\nPRODUCT/SERVICE DESCRIPTION:\nx\n\nTASK: undefined\n\nFORMAT: undefined\n\nREQUIREMENTS:\n- Make it professional and engaging\n- Ensure it\x27s suitable for the target audience\n- Focus on benefits and value proposition\n- Use persuasive language that drives action\n- Keep the tone appropriate for marketing materials\n\nPlease provide only the requested content without any additional explanations or meta-commentary." ∧
    buildPrompt upperTable "constructor" "x" ≠
      some (promptTemplate "CONSTRUCTOR" "x"
        "Create 3-5 catchy, memorable slogans that capture the essence of this product/service. Make them short, impactful, and brand-worthy."
        "List each slogan on a new line with a bullet point.") := by
  have hout : buildPrompt upperTable "constructor" "x" =
      some "You are a professional marketing copywriter with expertise in creating high-converting content. \n\nCONTENT TYPE: CONSTRUCTOR\n\nPRODUCT/SERVICE DESCRIPTION:\nx\n\nTASK: undefined\n\nFORMAT: undefined\n\nREQUIREMENTS:\n- Make it professional and engaging\n- Ensure it\x27s suitable for the target audience\n- Focus on benefits and value proposition\n- Use persuasive language that drives action\n- Keep the tone appropriate for marketing materials\n\nPlease provide only the requested content without any additional explanations or meta-commentary." :=
    rfl
  refine ⟨by decide, hout, ?_⟩
  rw [hout]
  decide

/-! ## Properties of the relay -/

/-- A POST to `/api/generate` is handled by the `end` listener on the accumulated body. -/
theorem handleRequest_generate (OPENAI_API_KEY : Option String)
    (https : ClientRequest → UpstreamResult) (req : IncomingMessage)
    (hmethod : req.method = "POST") (hurl : req.url = "/api/generate") :
    handleRequest OPENAI_API_KEY https req
      = onEnd OPENAI_API_KEY https (collectChunks req.chunks) := by
  have hopt : ¬ (req.method = "OPTIONS") := by rw [hmethod]; decide
  unfold handleRequest
  rw [if_neg hopt, if_pos ⟨hmethod, hurl⟩]

/-- The bodies of the four error responses, as `JSON.stringify` writes them. -/
theorem stringifyError_texts :
    stringifyError "OpenAI API key not configured"
      = "\x7b\"error\":\"OpenAI API key not configured\"\x7d" ∧
    stringifyError "Invalid request format" = "\x7b\"error\":\"Invalid request format\"\x7d" ∧
    stringifyError "Failed to connect to OpenAI"
      = "\x7b\"error\":\"Failed to connect to OpenAI\"\x7d" ∧
    stringifyError "Not found" = "\x7b\"error\":\"Not found\"\x7d" := by
  decide

/-- C3: a POST to `/api/generate` whose body is a JSON text, when `OPENAI_API_KEY`
is unset or empty, is answered with status 500 and the JSON body whose `error` is
`OpenAI API key not configured`, and no outbound request is made. -/
theorem generate_without_key (OPENAI_API_KEY : Option String)
    (https : ClientRequest → UpstreamResult) (req : IncomingMessage) (requestData : Json)
    (hmethod : req.method = "POST") (hurl : req.url = "/api/generate")
    (hbody : jsonParse (collectChunks req.chunks) = some requestData)
    (hkey : OPENAI_API_KEY = none ∨ OPENAI_API_KEY = some "") :
    (handleRequest OPENAI_API_KEY https req).response
      = { statusCode := 500
          headers := corsHeaders ++ [("Content-Type", "application/json")]
          body := "\x7b\"error\":\"OpenAI API key not configured\"\x7d" } ∧
    (handleRequest OPENAI_API_KEY https req).outbound = none := by
  rw [handleRequest_generate OPENAI_API_KEY https req hmethod hurl]
  simp only [onEnd, hbody]
  have h500 : keyNotConfigured.response
      = { statusCode := 500
          headers := corsHeaders ++ [("Content-Type", "application/json")]
          body := "\x7b\"error\":\"OpenAI API key not configured\"\x7d" } := by decide
  rcases hkey with rfl | rfl
  · exact ⟨h500, rfl⟩
  · exact ⟨h500, rfl⟩

/-- C3, on the example of the specification: the body with one user message is a
JSON text, and without a key the answer is the 500 response and nothing is sent,
whether the variable is unset or empty. -/
theorem generate_without_key_witness :
    jsonParse (collectChunks exampleRequest.chunks) = some exampleRequestData ∧
    (handleRequest none (fun _ => UpstreamResult.response 200 []) exampleRequest).response
      = { statusCode := 500
          headers := corsHeaders ++ [("Content-Type", "application/json")]
          body := "\x7b\"error\":\"OpenAI API key not configured\"\x7d" } ∧
    (handleRequest none (fun _ => UpstreamResult.response 200 []) exampleRequest).outbound = none :=
  ⟨rfl, generate_without_key none (fun _ => UpstreamResult.response 200 []) exampleRequest
    exampleRequestData rfl rfl rfl (Or.inl rfl)⟩

/-- C4: a POST to `/api/generate` whose body is no JSON text is answered with
status 400 and the JSON body whose `error` is `Invalid request format`, and no
outbound request is made, whatever the value of `OPENAI_API_KEY`. -/
theorem generate_invalid_body (OPENAI_API_KEY : Option String)
    (https : ClientRequest → UpstreamResult) (req : IncomingMessage)
    (hmethod : req.method = "POST") (hurl : req.url = "/api/generate")
    (hbody : jsonParse (collectChunks req.chunks) = none) :
    (handleRequest OPENAI_API_KEY https req).response
      = { statusCode := 400
          headers := corsHeaders ++ [("Content-Type", "application/json")]
          body := "\x7b\"error\":\"Invalid request format\"\x7d" } ∧
    (handleRequest OPENAI_API_KEY https req).outbound = none := by
  rw [handleRequest_generate OPENAI_API_KEY https req hmethod hurl]
  simp only [onEnd, hbody]
  exact ⟨by decide, rfl⟩

/-- C4, on the example of the specification: the text `not json` is no JSON text,
and it is answered with the 400 response with and without a key. -/
theorem generate_invalid_body_witness :
    jsonParse (collectChunks notJsonRequest.chunks) = none ∧
    (handleRequest (some "sk-test") (fun _ => UpstreamResult.response 200 []) notJsonRequest).response.statusCode
      = 400 ∧
    (handleRequest none (fun _ => UpstreamResult.response 200 []) notJsonRequest).response.statusCode
      = 400 ∧
    (handleRequest (some "sk-test") (fun _ => UpstreamResult.response 200 []) notJsonRequest).outbound
      = none :=
  ⟨rfl,
   congrArg ServerResponse.statusCode
     (generate_invalid_body (some "sk-test") (fun _ => UpstreamResult.response 200 [])
       notJsonRequest rfl rfl rfl).1,
   congrArg ServerResponse.statusCode
     (generate_invalid_body none (fun _ => UpstreamResult.response 200 [])
       notJsonRequest rfl rfl rfl).1,
   (generate_invalid_body (some "sk-test") (fun _ => UpstreamResult.response 200 [])
       notJsonRequest rfl rfl rfl).2⟩

/-- Decoding the bytes of one character, outside any pending sequence, gives the
character back and leaves the decoder outside any sequence. -/
theorem utf8Decode_encodeChar (c : Char) (rest : List Nat) :
    utf8DecodeFrom Utf8State.idle (utf8EncodeChar c ++ rest)
      = c :: utf8DecodeFrom Utf8State.idle rest := by
  have hv : c.toNat < 0xD800 ∨ (0xDFFF < c.toNat ∧ c.toNat < 0x110000) := c.valid
  have hc : Char.ofNat c.toNat = c := Char.ofNat_toNat c
  unfold utf8EncodeChar
  generalize c.toNat = n at hv hc
  by_cases h1 : n < 0x80
  · rw [if_pos h1]
    simp only [List.cons_append, List.nil_append, utf8DecodeFrom, utf8Step, utf8Lead,
      Utf8State.idle, if_pos h1, if_true, hc]
    rfl
  · rw [if_neg h1]
    by_cases h2 : n < 0x800
    · rw [if_pos h2]
      have e : (n / 64) * 64 + (0x80 + n % 64 - 0x80) = n := by omega
      have a1 : ¬ (0xC0 + n / 64 < 0x80) := by omega
      have a2 : 0xC2 ≤ 0xC0 + n / 64 ∧ 0xC0 + n / 64 ≤ 0xDF := by omega
      have a3 : 0x80 ≤ 0x80 + n % 64 ∧ 0x80 + n % 64 ≤ 0xBF := by omega
      have a4 : 0xC0 + n / 64 - 0xC0 = n / 64 := by omega
      simp only [List.cons_append, List.nil_append, utf8DecodeFrom, utf8Step, utf8Lead,
        Utf8State.idle, if_neg a1, if_pos a2, if_true, if_pos a3, a4, e, hc,
        Nat.one_ne_zero, if_false, List.append_nil, List.singleton_append]
      rfl
    · rw [if_neg h2]
      by_cases h3 : n < 0x10000
      · rw [if_pos h3]
        have e : ((n / 4096) * 64 + (0x80 + n / 64 % 64 - 0x80)) * 64 + (0x80 + n % 64 - 0x80) = n := by
          omega
        have a1 : ¬ (0xE0 + n / 4096 < 0x80) := by omega
        have a2 : ¬ (0xC2 ≤ 0xE0 + n / 4096 ∧ 0xE0 + n / 4096 ≤ 0xDF) := by omega
        have a3 : 0xE0 ≤ 0xE0 + n / 4096 ∧ 0xE0 + n / 4096 ≤ 0xEF := by omega
        have a4 : 0xE0 + n / 4096 - 0xE0 = n / 4096 := by omega
        have a5 : (if 0xE0 + n / 4096 = 0xE0 then 0xA0 else 0x80) ≤ 0x80 + n / 64 % 64 ∧
            0x80 + n / 64 % 64 ≤ (if 0xE0 + n / 4096 = 0xED then 0x9F else 0xBF) := by
          split_ifs <;> omega
        have a6 : 0x80 ≤ 0x80 + n % 64 ∧ 0x80 + n % 64 ≤ 0xBF := by omega
        simp only [List.cons_append, List.nil_append, utf8DecodeFrom, utf8Step, utf8Lead,
          Utf8State.idle, if_neg a1, if_neg a2, if_pos a3, if_true, if_pos a5, if_pos a6, a4, e, hc,
          Nat.one_ne_zero, if_false, List.append_nil, List.singleton_append,
          Nat.succ_ne_zero, OfNat.ofNat_ne_zero, OfNat.ofNat_ne_one, Nat.add_one_sub_one,
          show (2 : Nat) - 1 = 1 from rfl, show ¬ ((2 : Nat) = 0) by decide,
          show ¬ ((2 : Nat) = 1) by decide]
        rfl
      · rw [if_neg h3]
        have e : (((n / 262144) * 64 + (0x80 + n / 4096 % 64 - 0x80)) * 64
            + (0x80 + n / 64 % 64 - 0x80)) * 64 + (0x80 + n % 64 - 0x80) = n := by
          omega
        have a1 : ¬ (0xF0 + n / 262144 < 0x80) := by omega
        have a2 : ¬ (0xC2 ≤ 0xF0 + n / 262144 ∧ 0xF0 + n / 262144 ≤ 0xDF) := by omega
        have a3 : ¬ (0xE0 ≤ 0xF0 + n / 262144 ∧ 0xF0 + n / 262144 ≤ 0xEF) := by omega
        have a3b : 0xF0 ≤ 0xF0 + n / 262144 ∧ 0xF0 + n / 262144 ≤ 0xF4 := by omega
        have a4 : 0xF0 + n / 262144 - 0xF0 = n / 262144 := by omega
        have a5 : (if 0xF0 + n / 262144 = 0xF0 then 0x90 else 0x80) ≤ 0x80 + n / 4096 % 64 ∧
            0x80 + n / 4096 % 64 ≤ (if 0xF0 + n / 262144 = 0xF4 then 0x8F else 0xBF) := by
          split_ifs <;> omega
        have a6 : 0x80 ≤ 0x80 + n / 64 % 64 ∧ 0x80 + n / 64 % 64 ≤ 0xBF := by omega
        have a7 : 0x80 ≤ 0x80 + n % 64 ∧ 0x80 + n % 64 ≤ 0xBF := by omega
        simp only [List.cons_append, List.nil_append, utf8DecodeFrom, utf8Step, utf8Lead,
          Utf8State.idle, if_neg a1, if_neg a2, if_neg a3, if_pos a3b, if_true, if_pos a5,
          if_pos a6, if_pos a7, a4, e, hc,
          Nat.one_ne_zero, if_false, List.append_nil, List.singleton_append,
          show (3 : Nat) - 1 = 2 from rfl, show (2 : Nat) - 1 = 1 from rfl,
          show ¬ ((3 : Nat) = 0) by decide, show ¬ ((3 : Nat) = 1) by decide,
          show ¬ ((2 : Nat) = 0) by decide, show ¬ ((2 : Nat) = 1) by decide]
        rfl

/-- A buffer that holds the UTF-8 bytes of a string decodes to that string. -/
theorem bufferToString_utf8Encode (s : String) : bufferToString (utf8Encode s) = s := by
  have h : ∀ l : List Char, utf8DecodeFrom Utf8State.idle (l.flatMap utf8EncodeChar) = l := by
    intro l
    induction l with
    | nil => rfl
    | cons c cs ih => rw [List.flatMap_cons, utf8Decode_encodeChar, ih]
  unfold bufferToString utf8Encode
  rw [h]

/-- The bytes of a concatenation are the bytes of its parts, in order. -/
theorem utf8Encode_append (s t : String) : utf8Encode (s ++ t) = utf8Encode s ++ utf8Encode t := by
  simp only [utf8Encode, String.data_append, List.flatMap_append]

/-- When every chunk holds whole characters, that is, when each chunk is the UTF-8
encoding of a string, the bytes of the accumulated string are the chunks in order. -/
theorem utf8Encode_collectChunks (texts : List String) :
    utf8Encode (collectChunks (texts.map utf8Encode)) = (texts.map utf8Encode).flatten := by
  have h : ∀ (l : List String) (acc : String),
      utf8Encode ((l.map utf8Encode).foldl (fun body chunk => body ++ bufferToString chunk) acc)
        = utf8Encode acc ++ (l.map utf8Encode).flatten := by
    intro l
    induction l with
    | nil => intro acc; simp
    | cons t ts ih =>
      intro acc
      simp only [List.map_cons, List.foldl_cons, List.flatten_cons]
      rw [ih, utf8Encode_append, bufferToString_utf8Encode, List.append_assoc]
  unfold collectChunks
  rw [h]
  rfl

/-- The outbound request of the `end` listener when a key is configured, its
`Authorization` value is accepted and the body is a JSON text other than `null`. -/
theorem onEnd_forwards (key : String) (https : ClientRequest → UpstreamResult)
    (body : String) (requestData : Json)
    (hbody : jsonParse body = some requestData)
    (hkey : key ≠ "") (hheader : invalidHeaderValue ("Bearer " ++ key) = false)
    (hnull : requestData ≠ Json.null) :
    ∃ messages : Option Json,
      (∀ m, readProperty requestData "messages" = PropertyRead.value m → messages = some m) ∧
      (readProperty requestData "messages" = PropertyRead.undefined → messages = none) ∧
      onEnd (some key) https body
        = { response := relayUpstream (https (openaiReq key messages))
            outbound := some (openaiReq key messages) } := by
  simp only [onEnd, hbody, if_neg hkey]
  cases hread : readProperty requestData "messages" with
  | typeError =>
    exfalso
    cases requestData with
    | null => exact hnull rfl
    | obj members =>
      simp only [readProperty] at hread
      split at hread <;> cases hread
    | bool b => cases hread
    | num n => cases hread
    | str u => cases hread
    | arr items => cases hread
  | undefined =>
    refine ⟨none, fun m hm => (by cases hm), fun _ => rfl, ?_⟩
    simp only [forward, hheader, Bool.false_eq_true, if_false]
  | value v =>
    refine ⟨some v, fun m hm => (by cases hm; rfl), fun h => (by cases h), ?_⟩
    simp only [forward, hheader, Bool.false_eq_true, if_false]

/-- Chunks that each hold the bytes of a text accumulate to the texts joined. -/
theorem collectChunks_whole_characters (texts : List String) :
    collectChunks (texts.map utf8Encode) = String.join texts := by
  have h : ∀ (l : List String) (acc : String),
      (l.map utf8Encode).foldl (fun body chunk => body ++ bufferToString chunk) acc
        = l.foldl (fun r s => r ++ s) acc := by
    intro l
    induction l with
    | nil => intro acc; rfl
    | cons t ts ih =>
      intro acc
      simp only [List.map_cons, List.foldl_cons, bufferToString_utf8Encode]
      exact ih _
  exact h texts ""

/-- The member that `lastMember` finds is the one the specification names. -/
theorem lastMember_eq (name : List Nat) (members : List (List Nat × Json)) :
    lastMember name members
      = (members.reverse.find? (fun p => decide (p.1 = name))).map (fun p => p.2) := by
  induction members with
  | nil => rfl
  | cons p rest ih =>
    obtain ⟨k, v⟩ := p
    simp only [lastMember, ih, List.reverse_cons, List.find?_append]
    cases hfind : rest.reverse.find? (fun p => decide (p.1 = name)) with
    | some q => simp
    | none =>
      by_cases hk : k = name
      · simp [hk]
      · simp [hk]

/-- The read of `messages` on a value other than `null` gives the caller's messages. -/
theorem readProperty_messages (requestData : Json) (hnull : requestData ≠ Json.null) :
    readProperty requestData "messages"
      = match callerMessages requestData with
        | some m => PropertyRead.value m
        | none => PropertyRead.undefined := by
  cases requestData with
  | null => exact absurd rfl hnull
  | obj members =>
    simp only [readProperty, callerMessages, lastMember_eq]
  | bool b => rfl
  | num n => rfl
  | str u => rfl
  | arr items => rfl

/-- The text of `openaiData`, written out: the four properties in source order, the
`messages` property left out when the read gave `undefined`. -/
theorem openaiData_text (messages : Option Json) :
    openaiData messages
      = match messages with
        | some m =>
          "\x7b\"model\":\"gpt-4o\",\"messages\":" ++ String.mk (jsonStringify m)
            ++ ",\"max_tokens\":2000,\"temperature\":0.7\x7d"
        | none => "\x7b\"model\":\"gpt-4o\",\"max_tokens\":2000,\"temperature\":0.7\x7d" := by
  cases messages with
  | none => decide
  | some m =>
    have h1 : jsonStringify (Json.str (toJsString "gpt-4o")) = "\"gpt-4o\"".data := by decide
    have h2 : jsonStringify (Json.num ['2', '0', '0', '0']) = "2000".data := by decide
    have h3 : jsonStringify (Json.num ['0', '.', '7']) = "0.7".data := by decide
    have q1 : (quoteJSONString "model").data = "\"model\"".data := by decide
    have q2 : (quoteJSONString "messages").data = "\"messages\"".data := by decide
    have q3 : (quoteJSONString "max_tokens").data = "\"max_tokens\"".data := by decide
    have q4 : (quoteJSONString "temperature").data = "\"temperature\"".data := by decide
    apply String.ext
    simp only [openaiData, stringifyLiteral, openaiObject, List.filterMap_cons, propertyText,
      List.filterMap_nil, joinComma, h1, h2, h3, q1, q2, q3, q4, String.data_append]
    simp

/-- The `end` listener, when a key is configured, its `Authorization` value is
accepted and the body is a JSON text other than `null`: the outbound request is
made from the caller's messages, and its callbacks write the answer. -/
theorem onEnd_payload (key : String) (https : ClientRequest → UpstreamResult)
    (body : String) (requestData : Json)
    (hbody : jsonParse body = some requestData)
    (hkey : key ≠ "") (hheader : invalidHeaderValue ("Bearer " ++ key) = false)
    (hnull : requestData ≠ Json.null) :
    onEnd (some key) https body
      = { response := relayUpstream (https (openaiReq key (callerMessages requestData)))
          outbound := some (openaiReq key (callerMessages requestData)) } := by
  obtain ⟨m, hv, hu, h⟩ := onEnd_forwards key https body requestData hbody hkey hheader hnull
  have hread := readProperty_messages requestData hnull
  have hm : m = callerMessages requestData := by
    cases hc : callerMessages requestData with
    | none =>
      rw [hc] at hread
      exact hu hread
    | some v =>
      rw [hc] at hread
      exact hv v hread
  rw [h, hm]

/-- C5, as amended: for two accepted requests whose bodies arrive in chunks that
each hold whole characters and have the same `messages` (the same value, or both
none), whatever else the bodies hold, the outbound request is the same, and the
text written to it is that of `JSON.stringify` for the object with model `gpt-4o`,
the caller's messages as `JSON.parse` read them, `max_tokens` 2000 and
`temperature` 0.7, without a `messages` member when the caller gave none. -/
theorem payload_depends_only_on_messages (key : String)
    (https1 https2 : ClientRequest → UpstreamResult) (req1 req2 : IncomingMessage)
    (texts1 texts2 : List String) (data1 data2 : Json)
    (hmethod1 : req1.method = "POST") (hurl1 : req1.url = "/api/generate")
    (hmethod2 : req2.method = "POST") (hurl2 : req2.url = "/api/generate")
    (hchunks1 : req1.chunks = texts1.map utf8Encode)
    (hchunks2 : req2.chunks = texts2.map utf8Encode)
    (hbody1 : jsonParse (String.join texts1) = some data1)
    (hbody2 : jsonParse (String.join texts2) = some data2)
    (hkey : key ≠ "") (hheader : invalidHeaderValue ("Bearer " ++ key) = false)
    (hnull1 : data1 ≠ Json.null) (hnull2 : data2 ≠ Json.null)
    (hsame : callerMessages data1 = callerMessages data2) :
    ∃ out : ClientRequest,
      (handleRequest (some key) https1 req1).outbound = some out ∧
      (handleRequest (some key) https2 req2).outbound = some out ∧
      out.data
        = match callerMessages data1 with
          | some m =>
            "\x7b\"model\":\"gpt-4o\",\"messages\":" ++ String.mk (jsonStringify m)
              ++ ",\"max_tokens\":2000,\"temperature\":0.7\x7d"
          | none => "\x7b\"model\":\"gpt-4o\",\"max_tokens\":2000,\"temperature\":0.7\x7d" := by
  have hb1 : jsonParse (collectChunks req1.chunks) = some data1 := by
    rw [hchunks1, collectChunks_whole_characters, hbody1]
  have hb2 : jsonParse (collectChunks req2.chunks) = some data2 := by
    rw [hchunks2, collectChunks_whole_characters, hbody2]
  refine ⟨openaiReq key (callerMessages data1), ?_, ?_, openaiData_text (callerMessages data1)⟩
  · rw [handleRequest_generate (some key) https1 req1 hmethod1 hurl1,
      onEnd_payload key https1 _ data1 hb1 hkey hheader hnull1]
  · rw [handleRequest_generate (some key) https2 req2 hmethod2 hurl2,
      onEnd_payload key https2 _ data2 hb2 hkey hheader hnull2, hsame]

/-- C5, as amended, on two requests: the example request, and one that gives the
same messages after an earlier `messages` member and before another model, token
limit and temperature, in two chunks. Both are accepted and the outbound request is
the same, with the fixed model, token limit and temperature. -/
theorem payload_depends_only_on_messages_witness :
    jsonParse (String.join overridingTexts) = some overridingRequestData ∧
    callerMessages overridingRequestData = some exampleMessages ∧
    ∃ out : ClientRequest,
      (handleRequest (some "sk-test") (fun _ => UpstreamResult.error) exampleRequest).outbound
        = some out ∧
      (handleRequest (some "sk-test") (fun _ => UpstreamResult.response 200 [])
          overridingRequest).outbound = some out ∧
      out.data
        = "\x7b\"model\":\"gpt-4o\",\"messages\":[\x7b\"role\":\"user\",\"content\":\"hi\"\x7d],\"max_tokens\":2000,\"temperature\":0.7\x7d" := by
  refine ⟨rfl, rfl, ?_⟩
  obtain ⟨out, h1, h2, hdata⟩ :=
    payload_depends_only_on_messages "sk-test" (fun _ => UpstreamResult.error)
      (fun _ => UpstreamResult.response 200 []) exampleRequest overridingRequest
      ["\x7b\"messages\":[\x7b\"role\":\"user\",\"content\":\"hi\"\x7d]\x7d"] overridingTexts
      exampleRequestData overridingRequestData rfl rfl rfl rfl rfl rfl rfl rfl
      (by decide) (by decide) (fun h => Json.noConfusion h) (fun h => Json.noConfusion h) rfl
  refine ⟨out, h1, h2, ?_⟩
  rw [hdata]
  decide

/-- C5, at a body whose `messages` is the numeral `1e999`: the request is accepted,
but the number is beyond the range of the doubles, so the text written upstream has
`null` for its `messages`, which is not the caller's messages. -/
theorem payload_messages_not_the_callers :
    (jsonParse "\x7b\"messages\":1e999\x7d").map callerMessages
      = some (some (Json.num ['1', 'e', '9', '9', '9'])) ∧
    (handleRequest (some "sk-test") (fun _ => UpstreamResult.error)
        (requestWithBody "\x7b\"messages\":1e999\x7d")).outbound.map (fun out => out.data)
      = some "\x7b\"model\":\"gpt-4o\",\"messages\":null,\"max_tokens\":2000,\"temperature\":0.7\x7d" ∧
    (jsonParse
        "\x7b\"model\":\"gpt-4o\",\"messages\":null,\"max_tokens\":2000,\"temperature\":0.7\x7d").map
        callerMessages
      = some (some Json.null) ∧
    Json.num ['1', 'e', '9', '9', '9'] ≠ Json.null :=
  ⟨rfl, by decide, rfl, fun h => Json.noConfusion h⟩

/-- The same body bytes give two payloads when a chunk boundary falls inside a
character: sent whole, the string `é` goes upstream as it is; cut between its two
bytes, it goes upstream as two characters U+FFFD. -/
theorem request_split_character_changes_payload :
    splitCharacterRequest.chunks.flatten = utf8Encode "\x7b\"messages\":\"é\"\x7d" ∧
    (handleRequest (some "sk-test") (fun _ => UpstreamResult.error)
        (requestWithBody "\x7b\"messages\":\"é\"\x7d")).outbound.map (fun out => out.data)
      = some "\x7b\"model\":\"gpt-4o\",\"messages\":\"é\",\"max_tokens\":2000,\"temperature\":0.7\x7d" ∧
    (handleRequest (some "sk-test") (fun _ => UpstreamResult.error)
        splitCharacterRequest).outbound.map (fun out => out.data)
      = some "\x7b\"model\":\"gpt-4o\",\"messages\":\"��\",\"max_tokens\":2000,\"temperature\":0.7\x7d" := by
  decide

/-- When `forward` makes an outbound request, the answer to the caller is the one
the callbacks of that request write. -/
theorem forward_outbound (key : String) (https : ClientRequest → UpstreamResult)
    (messages : Option Json) (out : ClientRequest)
    (hout : (forward key https messages).outbound = some out) :
    (forward key https messages).response = relayUpstream (https out) := by
  unfold forward at hout ⊢
  by_cases hh : invalidHeaderValue ("Bearer " ++ key) = true
  · rw [if_pos hh] at hout
    simp [invalidRequest] at hout
  · rw [if_neg hh] at hout ⊢
    simp only [Option.some.injEq] at hout
    rw [← hout]

/-- When the `end` listener makes an outbound request, the answer to the caller is
the one the callbacks of that request write. -/
theorem onEnd_outbound (OPENAI_API_KEY : Option String)
    (https : ClientRequest → UpstreamResult) (body : String) (out : ClientRequest)
    (hout : (onEnd OPENAI_API_KEY https body).outbound = some out) :
    (onEnd OPENAI_API_KEY https body).response = relayUpstream (https out) := by
  unfold onEnd at hout ⊢
  cases hparse : jsonParse body with
  | none =>
    rw [hparse] at hout
    simp [invalidRequest] at hout
  | some requestData =>
    rw [hparse] at hout
    cases OPENAI_API_KEY with
    | none => simp [keyNotConfigured] at hout
    | some key =>
      by_cases hkey : key = ""
      · simp [hkey, keyNotConfigured] at hout
      · simp only [if_neg hkey] at hout ⊢
        cases hread : readProperty requestData "messages" with
        | typeError =>
          rw [hread] at hout
          simp [invalidRequest] at hout
        | undefined =>
          rw [hread] at hout
          exact forward_outbound key https none out hout
        | value v =>
          rw [hread] at hout
          exact forward_outbound key https (some v) out hout

/-- When the handler makes an outbound request, the answer to the caller is the
one the callbacks of that request write. -/
theorem handleRequest_outbound (OPENAI_API_KEY : Option String)
    (https : ClientRequest → UpstreamResult) (req : IncomingMessage) (out : ClientRequest)
    (hout : (handleRequest OPENAI_API_KEY https req).outbound = some out) :
    (handleRequest OPENAI_API_KEY https req).response = relayUpstream (https out) := by
  unfold handleRequest at hout ⊢
  by_cases hoptions : req.method = "OPTIONS"
  · rw [if_pos hoptions] at hout
    simp at hout
  · rw [if_neg hoptions] at hout ⊢
    by_cases hroute : req.method = "POST" ∧ req.url = "/api/generate"
    · rw [if_pos hroute] at hout ⊢
      exact onEnd_outbound OPENAI_API_KEY https _ out hout
    · rw [if_neg hroute] at hout
      simp at hout

/-- When the relay forwards and a response arrives, the answer to the caller
carries the status code of that response and, as its body, the string accumulated
from the chunks, unless the status code is one that has no body. -/
theorem relay_status_and_text (OPENAI_API_KEY : Option String)
    (https : ClientRequest → UpstreamResult)
    (req : IncomingMessage) (out : ClientRequest) (statusCode : Nat) (chunks : List (List Nat))
    (hout : (handleRequest OPENAI_API_KEY https req).outbound = some out)
    (hresp : https out = UpstreamResult.response statusCode chunks) :
    (handleRequest OPENAI_API_KEY https req).response
      = { statusCode := statusCode
          headers := corsHeaders ++ [("Content-Type", "application/json")]
          body := if hasBody "POST" statusCode then collectChunks chunks else "" } := by
  rw [handleRequest_outbound OPENAI_API_KEY https req out hout, hresp]
  rfl

/-- When the relay forwards and the response arrives in chunks that each hold
whole characters, with a status code that has a body, the answer to the caller
carries the status code of the response and exactly the bytes of its body. -/
theorem relay_exact_on_whole_characters (OPENAI_API_KEY : Option String)
    (https : ClientRequest → UpstreamResult)
    (req : IncomingMessage) (out : ClientRequest) (statusCode : Nat) (texts : List String)
    (hout : (handleRequest OPENAI_API_KEY https req).outbound = some out)
    (hresp : https out = UpstreamResult.response statusCode (texts.map utf8Encode))
    (hstatus : hasBody "POST" statusCode = true) :
    (handleRequest OPENAI_API_KEY https req).response.statusCode = statusCode ∧
    utf8Encode (handleRequest OPENAI_API_KEY https req).response.body
      = (texts.map utf8Encode).flatten := by
  rw [relay_status_and_text OPENAI_API_KEY https req out statusCode _ hout hresp, if_pos hstatus]
  exact ⟨rfl, utf8Encode_collectChunks texts⟩

/-- C6, at an upstream body whose two-byte character is split between two chunks:
the upstream sends status 200 and the four bytes of the JSON string made of the
letter e with an acute accent, in two chunks of two bytes. The relay answers with
status 200, but its body is eight bytes long: each half of the split character
has become U+FFFD, so the body is not the concatenation of the chunks. -/
theorem relay_splits_multibyte_character :
    [0x22, 0xC3] ++ [0xA9, 0x22] = utf8Encode "\"é\"" ∧
    (handleRequest (some "sk-test")
        (fun _ => UpstreamResult.response 200 [[0x22, 0xC3], [0xA9, 0x22]])
        exampleRequest).response.statusCode = 200 ∧
    utf8Encode (handleRequest (some "sk-test")
        (fun _ => UpstreamResult.response 200 [[0x22, 0xC3], [0xA9, 0x22]])
        exampleRequest).response.body
      = [0x22, 0xEF, 0xBF, 0xBD, 0xEF, 0xBF, 0xBD, 0x22] ∧
    utf8Encode (handleRequest (some "sk-test")
        (fun _ => UpstreamResult.response 200 [[0x22, 0xC3], [0xA9, 0x22]])
        exampleRequest).response.body
      ≠ [0x22, 0xC3] ++ [0xA9, 0x22] := by
  decide

/-- C7: a request with method OPTIONS, on any URL, with any body and any value of
`OPENAI_API_KEY`, is answered with status 200, the three CORS headers and an
empty body; the body of the request is not read and no outbound request is made. -/
theorem options_preflight (OPENAI_API_KEY : Option String)
    (https : ClientRequest → UpstreamResult) (url : String) (chunks : List (List Nat)) :
    (handleRequest OPENAI_API_KEY https { method := "OPTIONS", url := url, chunks := chunks }).response
      = { statusCode := 200
          headers :=
            [ ("Access-Control-Allow-Origin", "*"),
              ("Access-Control-Allow-Methods", "GET, POST, PUT, DELETE, OPTIONS"),
              ("Access-Control-Allow-Headers", "Content-Type, Authorization") ]
          body := "" } ∧
    (handleRequest OPENAI_API_KEY https
        { method := "OPTIONS", url := url, chunks := chunks }).outbound = none :=
  ⟨rfl, rfl⟩

/-- C8, at a HEAD request: the method is not OPTIONS and the request is no POST to
`/api/generate`, so the handler takes the 404 branch; but the answer to a HEAD
request has no body, so the JSON text given to `res.end` is not sent. -/
theorem not_found_head_has_no_body :
    ("HEAD" : String) ≠ "OPTIONS" ∧
    ¬ (("HEAD" : String) = "POST" ∧ ("/api/generate" : String) = "/api/generate") ∧
    (handleRequest (some "sk-test") (fun _ => UpstreamResult.error)
        { method := "HEAD", url := "/api/generate", chunks := [] }).response
      = { statusCode := 404
          headers := corsHeaders ++ [("Content-Type", "application/json")]
          body := "" } ∧
    (handleRequest (some "sk-test") (fun _ => UpstreamResult.error)
        { method := "HEAD", url := "/api/generate", chunks := [] }).response.body
      ≠ "\x7b\"error\":\"Not found\"\x7d" := by
  decide

/-- C8, as amended: a request whose method is not OPTIONS and that is not a POST
with URL exactly `/api/generate` is answered with status 404 and no outbound
request is made; the body of the answer is the JSON text whose `error` is
`Not found`, except for a HEAD request, whose answer has no body. -/
theorem not_found (OPENAI_API_KEY : Option String) (https : ClientRequest → UpstreamResult)
    (req : IncomingMessage) (hoptions : req.method ≠ "OPTIONS")
    (hroute : ¬ (req.method = "POST" ∧ req.url = "/api/generate")) :
    (handleRequest OPENAI_API_KEY https req).response
      = { statusCode := 404
          headers := corsHeaders ++ [("Content-Type", "application/json")]
          body := if req.method = "HEAD" then "" else "\x7b\"error\":\"Not found\"\x7d" } ∧
    (handleRequest OPENAI_API_KEY https req).outbound = none := by
  unfold handleRequest
  rw [if_neg hoptions, if_neg hroute]
  refine ⟨?_, rfl⟩
  have htext : stringifyError "Not found" = "\x7b\"error\":\"Not found\"\x7d" := by decide
  by_cases hhead : req.method = "HEAD"
  · simp [jsonResponse, hasBody, hhead]
  · simp [jsonResponse, hasBody, hhead, htext]

/-- C8, as amended, on four requests: a GET of `/api/generate`, a POST to another
path and a POST to `/api/generate` with a query string get the 404 response with
the JSON body, and a HEAD request gets it without a body. -/
theorem not_found_witness :
    (handleRequest (some "sk-test") (fun _ => UpstreamResult.error)
        { method := "GET", url := "/api/generate", chunks := [] }).response
      = { statusCode := 404
          headers := corsHeaders ++ [("Content-Type", "application/json")]
          body := "\x7b\"error\":\"Not found\"\x7d" } ∧
    (handleRequest (some "sk-test") (fun _ => UpstreamResult.error)
        { method := "POST", url := "/other", chunks := exampleRequest.chunks }).response
      = { statusCode := 404
          headers := corsHeaders ++ [("Content-Type", "application/json")]
          body := "\x7b\"error\":\"Not found\"\x7d" } ∧
    (handleRequest (some "sk-test") (fun _ => UpstreamResult.error)
        { method := "POST", url := "/api/generate?x=1",
          chunks := exampleRequest.chunks }).outbound = none ∧
    (handleRequest (some "sk-test") (fun _ => UpstreamResult.error)
        { method := "HEAD", url := "/", chunks := [] }).response
      = { statusCode := 404
          headers := corsHeaders ++ [("Content-Type", "application/json")]
          body := "" } :=
  ⟨(not_found (some "sk-test") (fun _ => UpstreamResult.error)
        { method := "GET", url := "/api/generate", chunks := [] } (by decide) (by decide)).1,
   (not_found (some "sk-test") (fun _ => UpstreamResult.error)
        { method := "POST", url := "/other", chunks := exampleRequest.chunks }
        (by decide) (by decide)).1,
   (not_found (some "sk-test") (fun _ => UpstreamResult.error)
        { method := "POST", url := "/api/generate?x=1", chunks := exampleRequest.chunks }
        (by decide) (by decide)).2,
   (not_found (some "sk-test") (fun _ => UpstreamResult.error)
        { method := "HEAD", url := "/", chunks := [] } (by decide) (by decide)).1⟩

/-- C9: when the outbound request emits `error`, the relay answers with status 500
and the JSON body whose `error` is `Failed to connect to OpenAI`; this answer
differs from the one for a missing key, which has the same status and another
body, and from the one for an invalid body, which has another status and another
body. -/
theorem upstream_connection_failure (OPENAI_API_KEY : Option String)
    (https : ClientRequest → UpstreamResult) (req : IncomingMessage) (out : ClientRequest)
    (hout : (handleRequest OPENAI_API_KEY https req).outbound = some out)
    (hfail : https out = UpstreamResult.error) :
    (handleRequest OPENAI_API_KEY https req).response
      = { statusCode := 500
          headers := corsHeaders ++ [("Content-Type", "application/json")]
          body := "\x7b\"error\":\"Failed to connect to OpenAI\"\x7d" } ∧
    (handleRequest OPENAI_API_KEY https req).response.body ≠ keyNotConfigured.response.body ∧
    (handleRequest OPENAI_API_KEY https req).response.body ≠ invalidRequest.response.body ∧
    (handleRequest OPENAI_API_KEY https req).response.statusCode
      ≠ invalidRequest.response.statusCode := by
  rw [handleRequest_outbound OPENAI_API_KEY https req out hout, hfail]
  decide

/-- C9, on the example request: with a key and an upstream that cannot be reached,
the request is sent and the answer is the 500 response of a failed connection. -/
theorem upstream_connection_failure_witness :
    (handleRequest (some "sk-test") (fun _ => UpstreamResult.error) exampleRequest).outbound
      = some (openaiReq "sk-test" (some exampleMessages)) ∧
    (handleRequest (some "sk-test") (fun _ => UpstreamResult.error) exampleRequest).response
      = { statusCode := 500
          headers := corsHeaders ++ [("Content-Type", "application/json")]
          body := "\x7b\"error\":\"Failed to connect to OpenAI\"\x7d" } ∧
    keyNotConfigured.response.body = "\x7b\"error\":\"OpenAI API key not configured\"\x7d" ∧
    invalidRequest.response.body = "\x7b\"error\":\"Invalid request format\"\x7d" ∧
    invalidRequest.response.statusCode = 400 :=
  ⟨rfl,
   (upstream_connection_failure (some "sk-test") (fun _ => UpstreamResult.error) exampleRequest
      (openaiReq "sk-test" (some exampleMessages)) rfl rfl).1,
   by decide, by decide, by decide⟩

/-! ## Properties of the client error branch -/

/-- When the body of the response is an object whose `error` is a value with a
non-empty string `message`, as in the error bodies of the upstream provider, the
error thrown carries that message. -/
theorem errorOf_message (status : Nat) (errorData error : Json) (u : Nat) (us : List Nat)
    (herror : readProperty errorData "error" = PropertyRead.value error)
    (hmessage : readProperty error "message" = PropertyRead.value (Json.str (u :: us))) :
    errorOf status errorData = CallError.message (failedToGenerate (u :: us)) := by
  simp only [errorOf, herror, hmessage]

/-- When the body of the response has no `error`, the error thrown carries the
generic message with the status code. -/
theorem errorOf_absent (status : Nat) (errorData : Json)
    (herror : readProperty errorData "error" = PropertyRead.undefined) :
    errorOf status errorData = genericError status := by
  simp only [errorOf, herror]

/-- When the `error` of the body is a string, as in the relay's own error bodies,
the error thrown carries the generic message: a string has no `message`. -/
theorem errorOf_string (status : Nat) (errorData : Json) (text : List Nat)
    (herror : readProperty errorData "error" = PropertyRead.value (Json.str text)) :
    errorOf status errorData = genericError status := by
  have hmessage : readProperty (Json.str text) "message" = PropertyRead.undefined := rfl
  simp only [errorOf, herror, hmessage]

/-- C10, at the relay's own error responses: for the answer to the example request
without a key (status 500, `error` text `OpenAI API key not configured`) the error
thrown by `callOpenAI` has the generic message with the status code, in which the
`error` text does not occur; the same holds for the 400, 404 and 500 bodies of the
relay. -/
theorem callOpenAI_drops_relay_error_text :
    (handleRequest none (fun _ => UpstreamResult.error) exampleRequest).response.statusCode = 500 ∧
    (handleRequest none (fun _ => UpstreamResult.error) exampleRequest).response.body
      = "\x7b\"error\":\"OpenAI API key not configured\"\x7d" ∧
    callOpenAIError 500
        (handleRequest none (fun _ => UpstreamResult.error) exampleRequest).response.body
      = CallError.message (toJsString "Failed to generate content: HTTP error! status: 500") ∧
    ¬ (toJsString "OpenAI API key not configured"
        <:+: toJsString "Failed to generate content: HTTP error! status: 500") ∧
    callOpenAIError 400 (stringifyError "Invalid request format")
      = CallError.message (toJsString "Failed to generate content: HTTP error! status: 400") ∧
    callOpenAIError 404 (stringifyError "Not found")
      = CallError.message (toJsString "Failed to generate content: HTTP error! status: 404") ∧
    callOpenAIError 500 (stringifyError "Failed to connect to OpenAI")
      = CallError.message (toJsString "Failed to generate content: HTTP error! status: 500") :=
  ⟨rfl, by decide, rfl, by decide, rfl, rfl, rfl⟩

/-! ## The relay's own 400 response -/

/-- C11, at the body `null`: the text `null` is a JSON text and a key is
configured, yet the read of `messages` on the value `null` throws inside the `try`
block, so the relay answers with its 400 response `Invalid request format` and
makes no outbound request. -/
theorem generate_null_body_rejected :
    jsonParse (collectChunks (requestWithBody "null").chunks) = some Json.null ∧
    (handleRequest (some "sk-test") (fun _ => UpstreamResult.response 200 [])
        (requestWithBody "null")).response
      = { statusCode := 400
          headers := corsHeaders ++ [("Content-Type", "application/json")]
          body := "\x7b\"error\":\"Invalid request format\"\x7d" } ∧
    (handleRequest (some "sk-test") (fun _ => UpstreamResult.response 200 [])
        (requestWithBody "null")).outbound = none :=
  ⟨rfl, by decide, rfl⟩

/-- C11, as amended: with a key configured whose `Authorization` value is
accepted, a POST to `/api/generate` whose body is a JSON text leads to an outbound
request, and to the answer written by the callbacks of that request, exactly when
the value of the body is not `null`; for the value `null` the relay answers with
its 400 response `Invalid request format` and sends nothing. -/
theorem generate_forwards_unless_null (key : String) (https : ClientRequest → UpstreamResult)
    (req : IncomingMessage) (requestData : Json)
    (hmethod : req.method = "POST") (hurl : req.url = "/api/generate")
    (hbody : jsonParse (collectChunks req.chunks) = some requestData)
    (hkey : key ≠ "") (hheader : invalidHeaderValue ("Bearer " ++ key) = false) :
    (requestData = Json.null ∧
      (handleRequest (some key) https req).response
        = { statusCode := 400
            headers := corsHeaders ++ [("Content-Type", "application/json")]
            body := "\x7b\"error\":\"Invalid request format\"\x7d" } ∧
      (handleRequest (some key) https req).outbound = none) ∨
    (requestData ≠ Json.null ∧
      ∃ out : ClientRequest,
        (handleRequest (some key) https req).outbound = some out ∧
        (handleRequest (some key) https req).response = relayUpstream (https out)) := by
  rw [handleRequest_generate (some key) https req hmethod hurl]
  have h400 : invalidRequest.response
      = { statusCode := 400
          headers := corsHeaders ++ [("Content-Type", "application/json")]
          body := "\x7b\"error\":\"Invalid request format\"\x7d" } := by decide
  cases requestData with
  | null =>
    left
    have hend : onEnd (some key) https (collectChunks req.chunks) = invalidRequest := by
      simp only [onEnd, hbody, if_neg hkey, readProperty]
    rw [hend]
    exact ⟨rfl, h400, rfl⟩
  | bool b =>
    right
    obtain ⟨m, -, -, h⟩ :=
      onEnd_forwards key https _ _ hbody hkey hheader (fun h => Json.noConfusion h)
    exact ⟨fun h => Json.noConfusion h, openaiReq key m, by rw [h], by rw [h]⟩
  | num n =>
    right
    obtain ⟨m, -, -, h⟩ :=
      onEnd_forwards key https _ _ hbody hkey hheader (fun h => Json.noConfusion h)
    exact ⟨fun h => Json.noConfusion h, openaiReq key m, by rw [h], by rw [h]⟩
  | str u =>
    right
    obtain ⟨m, -, -, h⟩ :=
      onEnd_forwards key https _ _ hbody hkey hheader (fun h => Json.noConfusion h)
    exact ⟨fun h => Json.noConfusion h, openaiReq key m, by rw [h], by rw [h]⟩
  | arr items =>
    right
    obtain ⟨m, -, -, h⟩ :=
      onEnd_forwards key https _ _ hbody hkey hheader (fun h => Json.noConfusion h)
    exact ⟨fun h => Json.noConfusion h, openaiReq key m, by rw [h], by rw [h]⟩
  | obj members =>
    right
    obtain ⟨m, -, -, h⟩ :=
      onEnd_forwards key https _ _ hbody hkey hheader (fun h => Json.noConfusion h)
    exact ⟨fun h => Json.noConfusion h, openaiReq key m, by rw [h], by rw [h]⟩

/-- C11, as amended, on four bodies that are JSON texts other than `null`: a
number, a string, an empty array and an object without `messages` each lead to an
outbound request, answered by the callbacks of that request. -/
theorem generate_forwards_unless_null_witness :
    (∃ out : ClientRequest,
      (handleRequest (some "sk-test") (fun _ => UpstreamResult.response 200 [])
          (requestWithBody "5")).outbound = some out ∧
      (handleRequest (some "sk-test") (fun _ => UpstreamResult.response 200 [])
          (requestWithBody "5")).response
        = relayUpstream (UpstreamResult.response 200 [])) ∧
    (∃ out : ClientRequest,
      (handleRequest (some "sk-test") (fun _ => UpstreamResult.response 200 [])
          (requestWithBody "\"a\"")).outbound = some out) ∧
    (∃ out : ClientRequest,
      (handleRequest (some "sk-test") (fun _ => UpstreamResult.response 200 [])
          (requestWithBody "[]")).outbound = some out) ∧
    (∃ out : ClientRequest,
      (handleRequest (some "sk-test") (fun _ => UpstreamResult.response 200 [])
          (requestWithBody "\x7b\"model\":\"gpt-3.5-turbo\"\x7d")).outbound = some out) := by
  refine ⟨?_, ?_, ?_, ?_⟩
  · rcases generate_forwards_unless_null "sk-test" (fun _ => UpstreamResult.response 200 [])
        (requestWithBody "5") (Json.num ['5']) rfl rfl rfl (by decide) (by decide) with
      ⟨h, -, -⟩ | ⟨-, out, hout, hresp⟩
    · exact Json.noConfusion h
    · exact ⟨out, hout, hresp⟩
  · rcases generate_forwards_unless_null "sk-test" (fun _ => UpstreamResult.response 200 [])
        (requestWithBody "\"a\"") (Json.str (toJsString "a")) rfl rfl rfl (by decide)
        (by decide) with
      ⟨h, -, -⟩ | ⟨-, out, hout, -⟩
    · exact Json.noConfusion h
    · exact ⟨out, hout⟩
  · rcases generate_forwards_unless_null "sk-test" (fun _ => UpstreamResult.response 200 [])
        (requestWithBody "[]") (Json.arr []) rfl rfl rfl (by decide) (by decide) with
      ⟨h, -, -⟩ | ⟨-, out, hout, -⟩
    · exact Json.noConfusion h
    · exact ⟨out, hout⟩
  · rcases generate_forwards_unless_null "sk-test" (fun _ => UpstreamResult.response 200 [])
        (requestWithBody "\x7b\"model\":\"gpt-3.5-turbo\"\x7d")
        (Json.obj [(toJsString "model", Json.str (toJsString "gpt-3.5-turbo"))])
        rfl rfl rfl (by decide) (by decide) with
      ⟨h, -, -⟩ | ⟨-, out, hout, -⟩
    · exact Json.noConfusion h
    · exact ⟨out, hout⟩

end MarketAI
